import Mathlib

/-!
Verification of the pgforge instance lifecycle orchestrator.

This file gives a shallow embedding of the parts of the pgforge code base
(`src/instance/manager.ts`, `src/config/manager.ts`, `src/service/manager.ts`,
`src/config/types.ts`) that the verified claims are about, and proves the
claims against that embedding.

Modelling conventions:
* Persisted YAML documents are modelled by the inductive `Yaml` below; the
  external YAML library's `stringify`/`parse` pair is modelled by a structured
  codec (`encodeConfig` / `decodeConfig`) that follows the field layout of
  `PostgreSQLInstanceConfig` in `src/config/types.ts`.  Absent optional fields
  are omitted from the emitted document, as `YAML.stringify` omits `undefined`
  object properties.
* Every OS interaction (file existence probes, `netstat`, `which`, process
  spawning, signal probes, systemd queries) is an oracle recorded in an `Env`
  structure; each lifecycle operation is a pure function of the environment,
  the persisted record store and the modelled filesystem.
* Numeric configuration values are modelled as `Nat`.
-/

/-- Structured document, modelling the parsed form of the YAML files the
Record Store reads and writes. -/
inductive Yaml where
  | str (s : String)
  | num (n : Nat)
  | bool (b : Bool)
  | arr (xs : List Yaml)
  | map (kvs : List (String × Yaml))

/-- Association-list lookup used to read a key of a YAML mapping. -/
def lookupKvs : List (String × Yaml) → String → Option Yaml
  | [], _ => none
  | (k', v) :: rest, k => if k' = k then some v else lookupKvs rest k

/-- Read a key of a document; `none` on non-mappings and absent keys. -/
def Yaml.get : Yaml → String → Option Yaml
  | .map kvs, k => lookupKvs kvs k
  | _, _ => none

/-- View a document as a string scalar. -/
def Yaml.asStr : Yaml → Option String
  | .str s => some s
  | _ => none

/-- View a document as a numeric scalar. -/
def Yaml.asNat : Yaml → Option Nat
  | .num n => some n
  | _ => none

/-- View a document as a boolean scalar. -/
def Yaml.asBool : Yaml → Option Bool
  | .bool b => some b
  | _ => none

/-- Traverse a list under `Option`, failing when any element fails. -/
def mapOpt (f : α → Option β) : List α → Option (List β)
  | [] => some []
  | x :: xs =>
    match f x, mapOpt f xs with
    | some y, some ys => some (y :: ys)
    | _, _ => none

/-- View a document as a sequence of string scalars. -/
def Yaml.asStrList : Yaml → Option (List String)
  | .arr xs => mapOpt Yaml.asStr xs
  | _ => none

/-- View a document as a mapping from strings to string scalars
(used for `metadata.labels` and the annotation map). -/
def Yaml.asStrMap : Yaml → Option (List (String × String))
  | .map kvs => mapOpt (fun kv => (Yaml.asStr kv.2).map (fun s => (kv.1, s))) kvs
  | _ => none

/-- Emit a key/value entry only when the value is present, the way
`YAML.stringify` omits `undefined` object properties. -/
def optField (k : String) : Option Yaml → List (String × Yaml)
  | none => []
  | some y => [(k, y)]

/-! ## Data model (`src/config/types.ts`) -/

/-- Reconciled systemd state mirror, as returned by
`ServiceManager.getServiceStatus`. -/
structure ServiceStatusInfo where
  enabled : Bool
  active : Bool
  status : String
deriving DecidableEq

/-- Lifecycle state enumeration of `status.state`. -/
inductive InstanceState where
  | stopped
  | starting
  | running
  | stopping
  | error
deriving DecidableEq

/-- Observed status sub-record (`status` in `types.ts`; the `service` field is
written by `InstanceManager.getInstanceStatus`). -/
structure InstanceStatus where
  state : InstanceState
  pid : Option Nat := none
  startTime : Option String := none
  lastRestart : Option String := none
  version : Option String := none
  dataSize : Option String := none
  connections : Option Nat := none
  service : Option ServiceStatusInfo := none
deriving DecidableEq

/-- Record metadata; `annots` models the `annotations` map of the source. -/
structure InstanceMetadata where
  name : String
  labels : Option (List (String × String)) := none
  annots : Option (List (String × String)) := none
deriving DecidableEq

/-- Network sub-record of the spec. -/
structure NetworkSpec where
  port : Nat
  bindAddress : String
  maxConnections : Nat
deriving DecidableEq

/-- Storage sub-record of the spec. -/
structure StorageSpec where
  dataDirectory : String
  logDirectory : String
  walDirectory : Option String := none
  archiveDirectory : Option String := none
deriving DecidableEq

/-- Database sub-record of the spec. -/
structure DatabaseSpec where
  name : String
  owner : String
  password : Option String := none
  encoding : String
  locale : String
  timezone : String
deriving DecidableEq

/-- SSL sub-record of the security spec. -/
structure SslSpec where
  enabled : Bool
  certificatePath : Option String := none
  keyPath : Option String := none
  ciphers : Option String := none
deriving DecidableEq

/-- Authentication sub-record of the security spec. -/
structure AuthenticationSpec where
  method : String
  allowedHosts : Option (List String) := none
deriving DecidableEq

/-- Audit sub-record of the security spec. -/
structure AuditSpec where
  enabled : Bool
  logLevel : Option String := none
  logConnections : Option Bool := none
  logDisconnections : Option Bool := none
  logStatements : Option (List String) := none
deriving DecidableEq

/-- Security sub-record of the spec. -/
structure SecuritySpec where
  ssl : Option SslSpec := none
  authentication : Option AuthenticationSpec := none
  audit : Option AuditSpec := none
deriving DecidableEq

/-- Performance sub-record of the spec (numeric tuning knobs as `Nat`). -/
structure PerformanceSpec where
  sharedBuffers : Option String := none
  effectiveCacheSize : Option String := none
  workMem : Option String := none
  maintenanceWorkMem : Option String := none
  walBuffers : Option String := none
  checkpointCompletionTarget : Option Nat := none
  randomPageCost : Option Nat := none
deriving DecidableEq

/-- Backup sub-record of the spec. -/
structure BackupSpec where
  enabled : Bool
  schedule : Option String := none
  retention : Option String := none
  compression : Option Bool := none
  format : Option String := none
  destination : Option String := none
deriving DecidableEq

/-- Optional service-management sub-record of the spec (written by
`InstanceManager.enableService`; read as `spec.service?.enabled`). -/
structure ServiceSpec where
  enabled : Bool
  autoStart : Bool
  restartPolicy : Option String := none
  restartSec : Option Nat := none
deriving DecidableEq

/-- Declarative spec sub-record. -/
structure InstanceSpecData where
  version : String
  network : NetworkSpec
  storage : StorageSpec
  database : DatabaseSpec
  security : Option SecuritySpec := none
  performance : Option PerformanceSpec := none
  backup : Option BackupSpec := none
  service : Option ServiceSpec := none
deriving DecidableEq

/-- One complete persisted instance record (`PostgreSQLInstanceConfig`). -/
structure PostgreSQLInstanceConfig where
  apiVersion : String
  kind : String
  metadata : InstanceMetadata
  spec : InstanceSpecData
  status : Option InstanceStatus := none
deriving DecidableEq

/-! ## Record serialization codec

Models the structured document that `ConfigManager.saveInstanceConfig` writes
with `YAML.stringify` and `ConfigManager.getInstanceConfig` reads back with
`YAML.parse`, following the field layout of `src/config/types.ts`. -/

/-- Encode a string-to-string map (labels, annotation map). -/
def encodeStrMap (kvs : List (String × String)) : Yaml :=
  .map (kvs.map (fun kv => (kv.1, .str kv.2)))

/-- Encode a list of strings (allowed hosts, logged statements). -/
def encodeStrList (xs : List String) : Yaml :=
  .arr (xs.map .str)

/-- Serialize the lifecycle state enumeration. -/
def encodeState : InstanceState → String
  | .stopped => "stopped"
  | .starting => "starting"
  | .running => "running"
  | .stopping => "stopping"
  | .error => "error"

/-- Parse the lifecycle state enumeration. -/
def decodeState : String → Option InstanceState
  | "stopped" => some .stopped
  | "starting" => some .starting
  | "running" => some .running
  | "stopping" => some .stopping
  | "error" => some .error
  | _ => none

/-- Encode the reconciled service status mirror. -/
def encodeServiceStatusInfo (s : ServiceStatusInfo) : Yaml :=
  .map [("enabled", .bool s.enabled), ("active", .bool s.active),
        ("status", .str s.status)]

/-- Decode the reconciled service status mirror. -/
def decodeServiceStatusInfo (y : Yaml) : Option ServiceStatusInfo :=
  match (y.get "enabled").bind Yaml.asBool, (y.get "active").bind Yaml.asBool,
      (y.get "status").bind Yaml.asStr with
  | some enabled, some active, some status => some ⟨enabled, active, status⟩
  | _, _, _ => none

/-- Encode the observed status sub-record. -/
def encodeStatus (st : InstanceStatus) : Yaml :=
  .map ([("state", .str (encodeState st.state))]
    ++ optField "pid" (st.pid.map .num)
    ++ optField "startTime" (st.startTime.map .str)
    ++ optField "lastRestart" (st.lastRestart.map .str)
    ++ optField "version" (st.version.map .str)
    ++ optField "dataSize" (st.dataSize.map .str)
    ++ optField "connections" (st.connections.map .num)
    ++ optField "service" (st.service.map encodeServiceStatusInfo))

/-- Decode the observed status sub-record. -/
def decodeStatus (y : Yaml) : Option InstanceStatus :=
  match ((y.get "state").bind Yaml.asStr).bind decodeState with
  | some state =>
      some { state,
             pid := (y.get "pid").bind Yaml.asNat,
             startTime := (y.get "startTime").bind Yaml.asStr,
             lastRestart := (y.get "lastRestart").bind Yaml.asStr,
             version := (y.get "version").bind Yaml.asStr,
             dataSize := (y.get "dataSize").bind Yaml.asStr,
             connections := (y.get "connections").bind Yaml.asNat,
             service := (y.get "service").bind decodeServiceStatusInfo }
  | none => none

/-- Encode the record metadata. -/
def encodeMetadata (m : InstanceMetadata) : Yaml :=
  .map ([("name", .str m.name)]
    ++ optField "labels" (m.labels.map encodeStrMap)
    ++ optField "annotations" (m.annots.map encodeStrMap))

/-- Decode the record metadata. -/
def decodeMetadata (y : Yaml) : Option InstanceMetadata :=
  match (y.get "name").bind Yaml.asStr with
  | some name =>
      some { name,
             labels := (y.get "labels").bind Yaml.asStrMap,
             annots := (y.get "annotations").bind Yaml.asStrMap }
  | none => none

/-- Encode the network sub-record. -/
def encodeNetwork (n : NetworkSpec) : Yaml :=
  .map [("port", .num n.port), ("bindAddress", .str n.bindAddress),
        ("maxConnections", .num n.maxConnections)]

/-- Decode the network sub-record. -/
def decodeNetwork (y : Yaml) : Option NetworkSpec :=
  match (y.get "port").bind Yaml.asNat, (y.get "bindAddress").bind Yaml.asStr,
      (y.get "maxConnections").bind Yaml.asNat with
  | some port, some bindAddress, some maxConnections =>
      some ⟨port, bindAddress, maxConnections⟩
  | _, _, _ => none

/-- Encode the storage sub-record. -/
def encodeStorage (s : StorageSpec) : Yaml :=
  .map ([("dataDirectory", .str s.dataDirectory),
         ("logDirectory", .str s.logDirectory)]
    ++ optField "walDirectory" (s.walDirectory.map .str)
    ++ optField "archiveDirectory" (s.archiveDirectory.map .str))

/-- Decode the storage sub-record. -/
def decodeStorage (y : Yaml) : Option StorageSpec :=
  match (y.get "dataDirectory").bind Yaml.asStr,
      (y.get "logDirectory").bind Yaml.asStr with
  | some dataDirectory, some logDirectory =>
      some { dataDirectory, logDirectory,
             walDirectory := (y.get "walDirectory").bind Yaml.asStr,
             archiveDirectory := (y.get "archiveDirectory").bind Yaml.asStr }
  | _, _ => none

/-- Encode the database sub-record. -/
def encodeDatabase (d : DatabaseSpec) : Yaml :=
  .map ([("name", .str d.name), ("owner", .str d.owner)]
    ++ optField "password" (d.password.map .str)
    ++ [("encoding", .str d.encoding), ("locale", .str d.locale),
        ("timezone", .str d.timezone)])

/-- Decode the database sub-record. -/
def decodeDatabase (y : Yaml) : Option DatabaseSpec :=
  match (y.get "name").bind Yaml.asStr, (y.get "owner").bind Yaml.asStr,
      (y.get "encoding").bind Yaml.asStr, (y.get "locale").bind Yaml.asStr,
      (y.get "timezone").bind Yaml.asStr with
  | some name, some owner, some encoding, some locale, some timezone =>
      some { name, owner, password := (y.get "password").bind Yaml.asStr,
             encoding, locale, timezone }
  | _, _, _, _, _ => none

/-- Encode the SSL sub-record. -/
def encodeSsl (s : SslSpec) : Yaml :=
  .map ([("enabled", .bool s.enabled)]
    ++ optField "certificatePath" (s.certificatePath.map .str)
    ++ optField "keyPath" (s.keyPath.map .str)
    ++ optField "ciphers" (s.ciphers.map .str))

/-- Decode the SSL sub-record. -/
def decodeSsl (y : Yaml) : Option SslSpec :=
  match (y.get "enabled").bind Yaml.asBool with
  | some enabled =>
      some { enabled,
             certificatePath := (y.get "certificatePath").bind Yaml.asStr,
             keyPath := (y.get "keyPath").bind Yaml.asStr,
             ciphers := (y.get "ciphers").bind Yaml.asStr }
  | none => none

/-- Encode the authentication sub-record. -/
def encodeAuthentication (a : AuthenticationSpec) : Yaml :=
  .map ([("method", .str a.method)]
    ++ optField "allowedHosts" (a.allowedHosts.map encodeStrList))

/-- Decode the authentication sub-record. -/
def decodeAuthentication (y : Yaml) : Option AuthenticationSpec :=
  match (y.get "method").bind Yaml.asStr with
  | some method =>
      some { method,
             allowedHosts := (y.get "allowedHosts").bind Yaml.asStrList }
  | none => none

/-- Encode the audit sub-record. -/
def encodeAudit (a : AuditSpec) : Yaml :=
  .map ([("enabled", .bool a.enabled)]
    ++ optField "logLevel" (a.logLevel.map .str)
    ++ optField "logConnections" (a.logConnections.map .bool)
    ++ optField "logDisconnections" (a.logDisconnections.map .bool)
    ++ optField "logStatements" (a.logStatements.map encodeStrList))

/-- Decode the audit sub-record. -/
def decodeAudit (y : Yaml) : Option AuditSpec :=
  match (y.get "enabled").bind Yaml.asBool with
  | some enabled =>
      some { enabled,
             logLevel := (y.get "logLevel").bind Yaml.asStr,
             logConnections := (y.get "logConnections").bind Yaml.asBool,
             logDisconnections := (y.get "logDisconnections").bind Yaml.asBool,
             logStatements := (y.get "logStatements").bind Yaml.asStrList }
  | none => none

/-- Encode the security sub-record. -/
def encodeSecurity (s : SecuritySpec) : Yaml :=
  .map (optField "ssl" (s.ssl.map encodeSsl)
    ++ optField "authentication" (s.authentication.map encodeAuthentication)
    ++ optField "audit" (s.audit.map encodeAudit))

/-- Decode the security sub-record. -/
def decodeSecurity (y : Yaml) : Option SecuritySpec :=
  some { ssl := (y.get "ssl").bind decodeSsl,
         authentication := (y.get "authentication").bind decodeAuthentication,
         audit := (y.get "audit").bind decodeAudit }

/-- Encode the performance sub-record. -/
def encodePerformance (p : PerformanceSpec) : Yaml :=
  .map (optField "sharedBuffers" (p.sharedBuffers.map .str)
    ++ optField "effectiveCacheSize" (p.effectiveCacheSize.map .str)
    ++ optField "workMem" (p.workMem.map .str)
    ++ optField "maintenanceWorkMem" (p.maintenanceWorkMem.map .str)
    ++ optField "walBuffers" (p.walBuffers.map .str)
    ++ optField "checkpointCompletionTarget"
        (p.checkpointCompletionTarget.map .num)
    ++ optField "randomPageCost" (p.randomPageCost.map .num))

/-- Decode the performance sub-record. -/
def decodePerformance (y : Yaml) : Option PerformanceSpec :=
  some { sharedBuffers := (y.get "sharedBuffers").bind Yaml.asStr,
         effectiveCacheSize := (y.get "effectiveCacheSize").bind Yaml.asStr,
         workMem := (y.get "workMem").bind Yaml.asStr,
         maintenanceWorkMem := (y.get "maintenanceWorkMem").bind Yaml.asStr,
         walBuffers := (y.get "walBuffers").bind Yaml.asStr,
         checkpointCompletionTarget :=
           (y.get "checkpointCompletionTarget").bind Yaml.asNat,
         randomPageCost := (y.get "randomPageCost").bind Yaml.asNat }

/-- Encode the backup sub-record. -/
def encodeBackup (b : BackupSpec) : Yaml :=
  .map ([("enabled", .bool b.enabled)]
    ++ optField "schedule" (b.schedule.map .str)
    ++ optField "retention" (b.retention.map .str)
    ++ optField "compression" (b.compression.map .bool)
    ++ optField "format" (b.format.map .str)
    ++ optField "destination" (b.destination.map .str))

/-- Decode the backup sub-record. -/
def decodeBackup (y : Yaml) : Option BackupSpec :=
  match (y.get "enabled").bind Yaml.asBool with
  | some enabled =>
      some { enabled,
             schedule := (y.get "schedule").bind Yaml.asStr,
             retention := (y.get "retention").bind Yaml.asStr,
             compression := (y.get "compression").bind Yaml.asBool,
             format := (y.get "format").bind Yaml.asStr,
             destination := (y.get "destination").bind Yaml.asStr }
  | none => none

/-- Encode the service-management sub-record. -/
def encodeServiceSpec (s : ServiceSpec) : Yaml :=
  .map ([("enabled", .bool s.enabled), ("autoStart", .bool s.autoStart)]
    ++ optField "restartPolicy" (s.restartPolicy.map .str)
    ++ optField "restartSec" (s.restartSec.map .num))

/-- Decode the service-management sub-record. -/
def decodeServiceSpec (y : Yaml) : Option ServiceSpec :=
  match (y.get "enabled").bind Yaml.asBool,
      (y.get "autoStart").bind Yaml.asBool with
  | some enabled, some autoStart =>
      some { enabled, autoStart,
             restartPolicy := (y.get "restartPolicy").bind Yaml.asStr,
             restartSec := (y.get "restartSec").bind Yaml.asNat }
  | _, _ => none

/-- Encode the declarative spec sub-record. -/
def encodeSpec (s : InstanceSpecData) : Yaml :=
  .map ([("version", .str s.version), ("network", encodeNetwork s.network),
         ("storage", encodeStorage s.storage),
         ("database", encodeDatabase s.database)]
    ++ optField "security" (s.security.map encodeSecurity)
    ++ optField "performance" (s.performance.map encodePerformance)
    ++ optField "backup" (s.backup.map encodeBackup)
    ++ optField "service" (s.service.map encodeServiceSpec))

/-- Decode the declarative spec sub-record. -/
def decodeSpec (y : Yaml) : Option InstanceSpecData :=
  match (y.get "version").bind Yaml.asStr, (y.get "network").bind decodeNetwork,
      (y.get "storage").bind decodeStorage,
      (y.get "database").bind decodeDatabase with
  | some version, some network, some storage, some database =>
      some { version, network, storage, database,
             security := (y.get "security").bind decodeSecurity,
             performance := (y.get "performance").bind decodePerformance,
             backup := (y.get "backup").bind decodeBackup,
             service := (y.get "service").bind decodeServiceSpec }
  | _, _, _, _ => none

/-- Encode one complete persisted instance record. -/
def encodeConfig (c : PostgreSQLInstanceConfig) : Yaml :=
  .map ([("apiVersion", .str c.apiVersion), ("kind", .str c.kind),
         ("metadata", encodeMetadata c.metadata), ("spec", encodeSpec c.spec)]
    ++ optField "status" (c.status.map encodeStatus))

/-- Decode one complete persisted instance record. -/
def decodeConfig (y : Yaml) : Option PostgreSQLInstanceConfig :=
  match (y.get "apiVersion").bind Yaml.asStr, (y.get "kind").bind Yaml.asStr,
      (y.get "metadata").bind decodeMetadata, (y.get "spec").bind decodeSpec with
  | some apiVersion, some kind, some metadata, some spec =>
      some { apiVersion, kind, metadata, spec,
             status := (y.get "status").bind decodeStatus }
  | _, _, _, _ => none

/-! ## Round-trip lemmas for the codec -/

@[simp]
theorem lookupKvs_nil (k : String) : lookupKvs [] k = none := rfl

@[simp]
theorem lookupKvs_cons (k' : String) (v : Yaml) (rest : List (String × Yaml))
    (k : String) :
    lookupKvs ((k', v) :: rest) k =
      if k' = k then some v else lookupKvs rest k := rfl

/-- First-result combiner used to state lookup over appended key lists. -/
def orElseKv (a b : Option Yaml) : Option Yaml :=
  match a with
  | some v => some v
  | none => b

@[simp]
theorem orElseKv_some (v : Yaml) (b : Option Yaml) :
    orElseKv (some v) b = some v := rfl

@[simp]
theorem orElseKv_none (b : Option Yaml) : orElseKv none b = b := rfl

@[simp]
theorem orElseKv_none_right (a : Option Yaml) : orElseKv a none = a := by
  cases a <;> rfl

@[simp]
theorem asStr_str (s : String) : Yaml.asStr (.str s) = some s := rfl

@[simp]
theorem asNat_num (n : Nat) : Yaml.asNat (.num n) = some n := rfl

@[simp]
theorem asBool_bool (b : Bool) : Yaml.asBool (.bool b) = some b := rfl

@[simp]
theorem lookupKvs_append (a b : List (String × Yaml)) (k : String) :
    lookupKvs (a ++ b) k = orElseKv (lookupKvs a k) (lookupKvs b k) := by
  induction a with
  | nil => simp [lookupKvs]
  | cons hd tl ih =>
      obtain ⟨k', v⟩ := hd
      by_cases h : k' = k <;> simp [lookupKvs, h, ih]

@[simp]
theorem lookupKvs_optField_self (k : String) (v : Option Yaml) :
    lookupKvs (optField k v) k = v := by
  cases v <;> simp [optField]

@[simp]
theorem lookupKvs_optField_ne (k' k : String) (v : Option Yaml) (h : k' ≠ k) :
    lookupKvs (optField k' v) k = none := by
  cases v <;> simp [optField, h]

@[simp]
theorem get_map (kvs : List (String × Yaml)) (k : String) :
    Yaml.get (.map kvs) k = lookupKvs kvs k := rfl

@[simp]
theorem asNat_map_num (o : Option Nat) :
    (o.map Yaml.num).bind Yaml.asNat = o := by
  cases o <;> rfl

@[simp]
theorem asStr_map_str (o : Option String) :
    (o.map Yaml.str).bind Yaml.asStr = o := by
  cases o <;> rfl

@[simp]
theorem asBool_map_bool (o : Option Bool) :
    (o.map Yaml.bool).bind Yaml.asBool = o := by
  cases o <;> rfl

theorem mapOpt_asStr_map (xs : List String) :
    mapOpt Yaml.asStr (xs.map .str) = some xs := by
  induction xs with
  | nil => rfl
  | cons hd tl ih => simp [mapOpt, ih]

theorem asStrList_encodeStrList (xs : List String) :
    Yaml.asStrList (encodeStrList xs) = some xs := by
  simp [encodeStrList, Yaml.asStrList, mapOpt_asStr_map]

@[simp]
theorem asStrList_map_encodeStrList (o : Option (List String)) :
    (o.map encodeStrList).bind Yaml.asStrList = o := by
  cases o <;> simp [asStrList_encodeStrList]

theorem mapOpt_asStr_strMap (kvs : List (String × String)) :
    mapOpt (fun kv => (Yaml.asStr kv.2).map (fun s => (kv.1, s)))
      (kvs.map (fun kv => (kv.1, Yaml.str kv.2))) = some kvs := by
  induction kvs with
  | nil => rfl
  | cons hd tl ih => simp [mapOpt, ih]

theorem asStrMap_encodeStrMap (kvs : List (String × String)) :
    Yaml.asStrMap (encodeStrMap kvs) = some kvs := by
  simp [encodeStrMap, Yaml.asStrMap, mapOpt_asStr_strMap]

@[simp]
theorem asStrMap_map_encodeStrMap (o : Option (List (String × String))) :
    (o.map encodeStrMap).bind Yaml.asStrMap = o := by
  cases o <;> simp [asStrMap_encodeStrMap]

@[simp]
theorem decodeState_encodeState (s : InstanceState) :
    decodeState (encodeState s) = some s := by
  cases s <;> rfl

@[simp]
theorem decodeServiceStatusInfo_enc (s : ServiceStatusInfo) :
    decodeServiceStatusInfo (encodeServiceStatusInfo s) = some s := by
  simp [decodeServiceStatusInfo, encodeServiceStatusInfo]

@[simp]
theorem decodeServiceStatusInfo_map_enc (o : Option ServiceStatusInfo) :
    (o.map encodeServiceStatusInfo).bind decodeServiceStatusInfo = o := by
  cases o <;> simp

@[simp]
theorem decodeStatus_enc (st : InstanceStatus) :
    decodeStatus (encodeStatus st) = some st := by
  simp [decodeStatus, encodeStatus]

@[simp]
theorem decodeStatus_map_enc (o : Option InstanceStatus) :
    (o.map encodeStatus).bind decodeStatus = o := by
  cases o <;> simp

@[simp]
theorem decodeMetadata_enc (m : InstanceMetadata) :
    decodeMetadata (encodeMetadata m) = some m := by
  simp [decodeMetadata, encodeMetadata]

@[simp]
theorem decodeNetwork_enc (n : NetworkSpec) :
    decodeNetwork (encodeNetwork n) = some n := by
  simp [decodeNetwork, encodeNetwork]

@[simp]
theorem decodeStorage_enc (s : StorageSpec) :
    decodeStorage (encodeStorage s) = some s := by
  simp [decodeStorage, encodeStorage]

@[simp]
theorem decodeDatabase_enc (d : DatabaseSpec) :
    decodeDatabase (encodeDatabase d) = some d := by
  simp [decodeDatabase, encodeDatabase]

@[simp]
theorem decodeSsl_enc (s : SslSpec) :
    decodeSsl (encodeSsl s) = some s := by
  simp [decodeSsl, encodeSsl]

@[simp]
theorem decodeSsl_map_enc (o : Option SslSpec) :
    (o.map encodeSsl).bind decodeSsl = o := by
  cases o <;> simp

@[simp]
theorem decodeAuthentication_enc (a : AuthenticationSpec) :
    decodeAuthentication (encodeAuthentication a) = some a := by
  simp [decodeAuthentication, encodeAuthentication]

@[simp]
theorem decodeAuthentication_map_enc (o : Option AuthenticationSpec) :
    (o.map encodeAuthentication).bind decodeAuthentication = o := by
  cases o <;> simp

@[simp]
theorem decodeAudit_enc (a : AuditSpec) :
    decodeAudit (encodeAudit a) = some a := by
  simp [decodeAudit, encodeAudit]

@[simp]
theorem decodeAudit_map_enc (o : Option AuditSpec) :
    (o.map encodeAudit).bind decodeAudit = o := by
  cases o <;> simp

@[simp]
theorem decodeSecurity_enc (s : SecuritySpec) :
    decodeSecurity (encodeSecurity s) = some s := by
  simp [decodeSecurity, encodeSecurity]

@[simp]
theorem decodeSecurity_map_enc (o : Option SecuritySpec) :
    (o.map encodeSecurity).bind decodeSecurity = o := by
  cases o <;> simp

@[simp]
theorem decodePerformance_enc (p : PerformanceSpec) :
    decodePerformance (encodePerformance p) = some p := by
  simp [decodePerformance, encodePerformance]

@[simp]
theorem decodePerformance_map_enc (o : Option PerformanceSpec) :
    (o.map encodePerformance).bind decodePerformance = o := by
  cases o <;> simp

@[simp]
theorem decodeBackup_enc (b : BackupSpec) :
    decodeBackup (encodeBackup b) = some b := by
  simp [decodeBackup, encodeBackup]

@[simp]
theorem decodeBackup_map_enc (o : Option BackupSpec) :
    (o.map encodeBackup).bind decodeBackup = o := by
  cases o <;> simp

@[simp]
theorem decodeServiceSpec_enc (s : ServiceSpec) :
    decodeServiceSpec (encodeServiceSpec s) = some s := by
  simp [decodeServiceSpec, encodeServiceSpec]

@[simp]
theorem decodeServiceSpec_map_enc (o : Option ServiceSpec) :
    (o.map encodeServiceSpec).bind decodeServiceSpec = o := by
  cases o <;> simp

@[simp]
theorem decodeSpec_enc (s : InstanceSpecData) :
    decodeSpec (encodeSpec s) = some s := by
  simp [decodeSpec, encodeSpec]

@[simp]
theorem decodeConfig_enc (c : PostgreSQLInstanceConfig) :
    decodeConfig (encodeConfig c) = some c := by
  simp [decodeConfig, encodeConfig]

/-! ## Record Store (`src/config/manager.ts`)

One persisted document per instance, keyed by the instance name (the source
keys files as `~/.pgforge/instances/<name>.yaml`; the `.yaml` suffix is a
bijective renaming and is elided).  A stored file is either a readable parsed
document or an unreadable file; a missing file is an absent key. -/

/-- On-disk state of one record file: `unreadable` when `readFile` throws,
`unparseable` when the text is read but `YAML.parse` throws, and
`content d` when the text parses to the document `d`. -/
inductive StoredFile where
  | unreadable
  | unparseable
  | content (doc : Yaml)

/-- The instances directory: file name to file state. -/
abbrev ConfigStore := List (String × StoredFile)

/-- Look a record file up by name. -/
def lookupStore : ConfigStore → String → Option StoredFile
  | [], _ => none
  | (k', v) :: rest, k => if k' = k then some v else lookupStore rest k

/-- Write a record file, replacing any previous file of that name. -/
def setStore : ConfigStore → String → StoredFile → ConfigStore
  | [], k, v => [(k, v)]
  | (k', v') :: rest, k, v =>
    if k' = k then (k, v) :: rest else (k', v') :: setStore rest k v

/-- Delete a record file by name. -/
def removeStore : ConfigStore → String → ConfigStore
  | [], _ => []
  | (k', v') :: rest, k =>
    if k' = k then rest else (k', v') :: removeStore rest k

/-- Reading an instance record, unvalidated
(`ConfigManager.getInstanceConfig`): the source wraps `readFile` +
`YAML.parse` in one `try`/`catch` that returns `null`, so a missing,
unreadable or unparseable file are all reported as `null` alike — and the
parsed value is returned through an unchecked `as PostgreSQLInstanceConfig`
cast with no shape validation, so a parsable document of the wrong shape is
returned as-is. -/
def getInstanceConfigRaw (store : ConfigStore) (name : String) :
    Option Yaml :=
  match lookupStore store name with
  | none => none
  | some .unreadable => none
  | some .unparseable => none
  | some (.content d) => some d

/-- Typed view of a record read, through which the lifecycle operations
below consume the record.  It decodes the stored document, which agrees
with the source's unchecked cast exactly on well-formed stored records —
the records the lifecycle theorems quantify over.  On a parsable document
of the wrong shape this view yields `none` while the source returns the
junk value itself; `getInstanceConfigRaw` is the faithful unvalidated
read, and the malformed-record theorems below settle the divergence. -/
def getInstanceConfig (store : ConfigStore) (name : String) :
    Option PostgreSQLInstanceConfig :=
  match lookupStore store name with
  | none => none
  | some .unreadable => none
  | some .unparseable => none
  | some (.content d) => decodeConfig d

/-- Writing an instance record (`ConfigManager.saveInstanceConfig`): the file
name is taken from `config.metadata.name`. -/
def saveInstanceConfig (store : ConfigStore)
    (config : PostgreSQLInstanceConfig) : ConfigStore :=
  setStore store config.metadata.name (.content (encodeConfig config))

/-- Deleting an instance record (`ConfigManager.deleteInstance`): `unlink`
throws on a missing file, which the source catches and reports as `false`. -/
def deleteInstance (store : ConfigStore) (name : String) :
    ConfigStore × Bool :=
  match lookupStore store name with
  | none => (store, false)
  | some _ => (removeStore store name, true)

/-- Listing instance names (`ConfigManager.listInstances`): the names of the
record files present in the instances directory. -/
def listInstanceNames (store : ConfigStore) : List String :=
  store.map (·.1)

@[simp]
theorem lookupStore_setStore_self (store : ConfigStore) (k : String)
    (v : StoredFile) : lookupStore (setStore store k v) k = some v := by
  induction store with
  | nil => simp [setStore, lookupStore]
  | cons hd tl ih =>
      obtain ⟨k', v'⟩ := hd
      by_cases h : k' = k <;> simp [setStore, lookupStore, h, ih]

theorem lookupStore_setStore_ne (store : ConfigStore) (k k' : String)
    (v : StoredFile) (h : k ≠ k') :
    lookupStore (setStore store k v) k' = lookupStore store k' := by
  induction store with
  | nil => simp [setStore, lookupStore, h]
  | cons hd tl ih =>
      obtain ⟨k₀, v₀⟩ := hd
      by_cases h₀ : k₀ = k
      · subst h₀; simp [setStore, lookupStore, h]
      · simp [setStore, lookupStore, h₀, ih]

/-! ## OS environment oracles

Each lifecycle operation is one sequential flow of OS interactions; the
outcome of every interaction the source performs is recorded here so the
operations become pure functions. -/

/-- One entry of a data directory as seen by `readdir`/`stat`. -/
structure DirEntry where
  name : String
  isDir : Bool := false
  fileContent : String := ""
deriving DecidableEq

/-- Outcomes of the OS interactions one lifecycle operation performs. -/
structure Env where
  /-- Result of `access(path)` for the probed binary paths. -/
  pathExists : String → Bool
  /-- Result of `which <binary>`: `none` when the command fails. -/
  whichResult : String → Option String
  /-- Standard output of `netstat -tulpn | grep :<port>`; `none` when the
  piped command exits nonzero (in particular when `grep` matches nothing). -/
  netstatOutput : Nat → Option String
  /-- Whether `process.kill(pid, 0)` succeeds, i.e. the pid is live. -/
  procAlive : Nat → Bool
  /-- Pid assigned to the detached server spawn (`none`: no pid assigned). -/
  spawnPid : Option Nat
  /-- Pid assigned to the temporary bootstrap server spawn. -/
  tempPid : Option Nat
  /-- Whether a signalled process exits within the graceful-stop wait. -/
  diesOnTerm : Nat → Bool
  /-- Result of `systemctl --version` succeeding. -/
  systemdAvailable : Bool
  /-- Reconciled systemd unit state per instance name. -/
  serviceStatus : String → ServiceStatusInfo
  /-- Version reported by `detectInstalledPostgreSQLVersion`. -/
  detectedVersion : Option String
  /-- Password produced by `generateSecurePassword` for the database owner. -/
  ownerPassword : String
  /-- Current timestamp (`new Date().toISOString()`). -/
  now : String
  /-- Whether the `initdb` invocation succeeds. -/
  initdbOk : Bool
  /-- Data-directory contents produced by a successful `initdb`. -/
  clusterFiles : List DirEntry
  /-- Whether the bootstrap readiness poll succeeds within its ceiling. -/
  readyOk : Bool
  /-- Whether the provisioning SQL statements all succeed. -/
  sqlOk : Bool

/-- Process-level side effects an operation performs (signal probes with
signal `0` are reads and are modelled through `Env.procAlive`). -/
inductive ProcAction where
  | spawned (pid : Option Nat)
  | sigterm (pid : Nat)
  | sigkill (pid : Nat)
deriving DecidableEq

/-- Modelled filesystem: directory path to directory contents. -/
abbrev FS := List (String × List DirEntry)

/-- Look a directory up by path (`access` succeeding means the key exists). -/
def fsLookup : FS → String → Option (List DirEntry)
  | [], _ => none
  | (k', v) :: rest, k => if k' = k then some v else fsLookup rest k

/-- Replace or create a directory's contents. -/
def fsSet : FS → String → List DirEntry → FS
  | [], k, v => [(k, v)]
  | (k', v') :: rest, k, v =>
    if k' = k then (k, v) :: rest else (k', v') :: fsSet rest k v

/-- Create a directory only when absent (`access` + `mkdir` on failure). -/
def fsEnsureDir (fs : FS) (dir : String) : FS :=
  match fsLookup fs dir with
  | some _ => fs
  | none => fsSet fs dir []

@[simp]
theorem fsLookup_fsSet_self (fs : FS) (k : String) (v : List DirEntry) :
    fsLookup (fsSet fs k v) k = some v := by
  induction fs with
  | nil => simp [fsSet, fsLookup]
  | cons hd tl ih =>
      obtain ⟨k', v'⟩ := hd
      by_cases h : k' = k <;> simp [fsSet, fsLookup, h, ih]

theorem fsLookup_fsSet_ne (fs : FS) (k k' : String) (v : List DirEntry)
    (h : k ≠ k') : fsLookup (fsSet fs k v) k' = fsLookup fs k' := by
  induction fs with
  | nil => simp [fsSet, fsLookup, h]
  | cons hd tl ih =>
      obtain ⟨k₀, v₀⟩ := hd
      by_cases h₀ : k₀ = k
      · subst h₀; simp [fsSet, fsLookup, h]
      · simp [fsSet, fsLookup, h₀, ih]

/-! ## Binary Locator (`InstanceManager.findPostgreSQLBinary`) -/

/-- Extraction of the major version (`version.split('.')[0]`). -/
def majorVersionOf (version : String) : String :=
  (version.splitOn ".").headD ""

/-- Exact-version vendor install paths, in probe order. -/
def vendorExactPaths (binary version : String) : List String :=
  ["/usr/lib/postgresql/" ++ version ++ "/bin/" ++ binary,
   "/usr/pgsql-" ++ version ++ "/bin/" ++ binary,
   "/opt/postgresql/" ++ version ++ "/bin/" ++ binary]

/-- Major-version vendor install paths, in probe order. -/
def vendorMajorPaths (binary version : String) : List String :=
  ["/usr/lib/postgresql/" ++ majorVersionOf version ++ "/bin/" ++ binary,
   "/usr/pgsql-" ++ majorVersionOf version ++ "/bin/" ++ binary,
   "/opt/postgresql/" ++ majorVersionOf version ++ "/bin/" ++ binary]

/-- Common generic install paths, in probe order. -/
def genericPaths (binary : String) : List String :=
  ["/usr/bin/" ++ binary,
   "/usr/local/bin/" ++ binary,
   "/usr/local/pgsql/bin/" ++ binary,
   "/opt/postgresql/bin/" ++ binary]

/-- The full prioritized candidate list (the `paths` array of the source). -/
def binaryCandidatePaths (binary version : String) : List String :=
  vendorExactPaths binary version ++ vendorMajorPaths binary version
    ++ genericPaths binary

/-- Typed failures of the embedded operations (each constructor corresponds
to one `throw new Error(...)` site of the source). -/
inductive PgErr where
  | alreadyExists (name : String)
  | portInUse (port : Nat)
  | notFound (name : String)
  | alreadyRunning (name : String)
  | notRunning (name : String)
  | runningNeedsForce (name : String)
  | unsafeState (dataDirectory : String) (files : List String)
  | binaryNotFound (binary : String) (version : String)
  | notInstalled (version : String)
  | initdbFailed
  | readyTimeout
  | sqlFailed
  | spawnNoPid
  | spawnDied (pid : Nat)
deriving DecidableEq

/-- Locate a required executable: probe the candidate paths in priority
order, then fall back to `which`; the trimmed `which` output is returned
only when non-empty. -/
def findPostgreSQLBinary (env : Env) (binary version : String) :
    Except PgErr String :=
  match (binaryCandidatePaths binary version).find? env.pathExists with
  | some p => .ok p
  | none =>
    match env.whichResult binary with
    | some w =>
        if w.trim = "" then .error (.binaryNotFound binary version)
        else .ok w.trim
    | none => .error (.binaryNotFound binary version)

/-! ## Partial-installation classifier (`InstanceManager`) -/

/-- File-name signatures indicating a PostgreSQL/pgforge installation
attempt (`pgforgeIndicators` in the source). -/
def pgforgeIndicators : List String :=
  ["postgresql.conf", "pg_hba.conf", "PG_VERSION", "postmaster.pid",
   "postmaster.opts", "sockets", "pg_stat", "pg_xact", "pg_wal", "base",
   "global", "pg_tblspc"]

/-- The generated-file marker line the classifier searches for. -/
def pgforgeMarkerText : String :=
  "PostgreSQL configuration generated by PgForge"

/-- Whether the pattern is a prefix of the character list. -/
def charsStartWith : List Char → List Char → Bool
  | [], _ => true
  | _ :: _, [] => false
  | p :: ps, c :: cs => p == c && charsStartWith ps cs

/-- Prefix test on strings (`String.prototype.startsWith`). -/
def strStartsWith (s pre : String) : Bool :=
  charsStartWith pre.data s.data

/-- Whether the pattern occurs somewhere in the character list. -/
def charsContain : List Char → List Char → Bool
  | [], pattern => pattern.isEmpty
  | c :: rest, pattern =>
    charsStartWith pattern (c :: rest) || charsContain rest pattern

/-- Substring containment (`String.prototype.includes`). -/
def containsText (content pattern : String) : Bool :=
  charsContain content.data pattern.data

/-- Classify a non-empty data directory (`detectPartialInstallation`).  The
recognition-ratio comparison `recognized / total >= 0.8` of the source is an
exact rational comparison at these magnitudes and is modelled as
`4 * total <= 5 * recognized`. -/
def detectPartialInstallation (entries : List DirEntry) : Bool :=
  let files := entries.map (·.name)
  let recognizedFiles :=
    files.filter (fun f => pgforgeIndicators.any (fun ind => strStartsWith f ind))
  let hasPgforgeMarkers :=
    files.any (fun f => f == "postgresql.conf" || f == "pg_hba.conf")
  let markerFound :=
    hasPgforgeMarkers &&
      (match entries.find? (fun e => e.name == "postgresql.conf") with
       | some e => !e.isDir && containsText e.fileContent pgforgeMarkerText
       | none => false)
  if markerFound then true
  else if 4 * files.length ≤ 5 * recognizedFiles.length then true
  else recognizedFiles.length ≥ 3 && files.length ≤ 10

/-- Directory-preparation guard (`ensureDataDirectoryIsEmpty`): a missing or
empty data directory passes; a non-empty one is erased when classified as a
partial installation and otherwise aborts creation, untouched. -/
def ensureDataDirectoryIsEmpty (fs : FS) (dataDirectory : String) :
    Except PgErr FS :=
  match fsLookup fs dataDirectory with
  | none => .ok fs
  | some entries =>
    if entries.isEmpty then .ok fs
    else if detectPartialInstallation entries then
      .ok (fsSet fs dataDirectory [])
    else .error (.unsafeState dataDirectory (entries.map (·.name)))

/-! ## Generated configuration files (`InstanceManager`) -/

/-- Path concatenation (`join` from `node:path` on absolute directories). -/
def pathJoin (a b : String) : String := a ++ "/" ++ b

/-- Generate `postgresql.conf` (`generatePostgreSQLConf`). -/
def generatePostgreSQLConf (config : PostgreSQLInstanceConfig) : String :=
  let socketDirectory := pathJoin config.spec.storage.dataDirectory "sockets"
  let perf := config.spec.performance
  let baseLines :=
    ["# PostgreSQL configuration generated by PgForge",
     "port = " ++ toString config.spec.network.port,
     "listen_addresses = '" ++ config.spec.network.bindAddress ++ "'",
     "max_connections = " ++ toString config.spec.network.maxConnections,
     "",
     "# Socket configuration - avoid system permission issues",
     "unix_socket_directories = '" ++ socketDirectory ++ "'",
     "",
     "# Performance settings"]
  let perfLine (field : Option String) (key : String) : List String :=
    match field with
    | some v => [key ++ " = '" ++ v ++ "'"]
    | none => []
  let perfLines :=
    perfLine (perf.bind (·.sharedBuffers)) "shared_buffers"
      ++ perfLine (perf.bind (·.effectiveCacheSize)) "effective_cache_size"
      ++ perfLine (perf.bind (·.workMem)) "work_mem"
      ++ perfLine (perf.bind (·.maintenanceWorkMem)) "maintenance_work_mem"
  let logLines :=
    ["", "# Logging",
     "log_directory = '" ++ config.spec.storage.logDirectory ++ "'",
     "log_filename = 'postgresql-%Y-%m-%d_%H%M%S.log'",
     "logging_collector = on"]
  let sslLines :=
    match (config.spec.security.bind (·.ssl)).map (·.enabled) with
    | some true => ["", "# SSL Configuration", "ssl = on"]
    | _ => []
  String.intercalate "\n" (baseLines ++ perfLines ++ logLines ++ sslLines)
    ++ "\n"

/-- Generate `pg_hba.conf` (`generatePgHbaConf`). -/
def generatePgHbaConf (config : PostgreSQLInstanceConfig) : String :=
  let auth := config.spec.security.bind (·.authentication)
  let allowedHosts := (auth.bind (·.allowedHosts)).getD ["127.0.0.1/32"]
  let method :=
    match auth with
    | some a => if a.method = "" then "md5" else a.method
    | none => "md5"
  let headLines :=
    ["# pg_hba.conf generated by PgForge",
     "# TYPE  DATABASE        USER            ADDRESS                 METHOD",
     "",
     "# Local connections - use md5 for password authentication",
     "local   all             all                                     md5",
     "",
     "# IPv4 connections"]
  let hostLines := allowedHosts.map (fun host =>
    "host    all             all             " ++ host
      ++ "                 " ++ method)
  String.intercalate "\n" (headLines ++ hostLines) ++ "\n"

/-- Write one file into a directory, replacing a previous entry of the same
name. -/
def writeEntry (entries : List DirEntry) (e : DirEntry) : List DirEntry :=
  match entries.find? (fun x => x.name == e.name) with
  | some _ => entries.map (fun x => if x.name == e.name then e else x)
  | none => entries ++ [e]

/-- Write a file at `dir/fname` in the modelled filesystem. -/
def fsWriteFile (fs : FS) (dir fname content : String) : FS :=
  let entries := (fsLookup fs dir).getD []
  fsSet fs dir (writeEntry entries { name := fname, fileContent := content })

/-- Write the two generated configuration files into the data directory
(`generateConfigFiles`). -/
def generateConfigFiles (fs : FS) (config : PostgreSQLInstanceConfig) : FS :=
  let dd := config.spec.storage.dataDirectory
  let fs1 := fsWriteFile fs dd "postgresql.conf" (generatePostgreSQLConf config)
  fsWriteFile fs1 dd "pg_hba.conf" (generatePgHbaConf config)

/-! ## Instance Lifecycle Orchestrator (`src/instance/manager.ts`) -/

/-- Port probe (`isPortAvailable`): the port counts as free when the piped
`netstat | grep` command fails (no matching line) or prints only
whitespace. -/
def isPortAvailable (env : Env) (port : Nat) : Bool :=
  match env.netstatOutput port with
  | none => true
  | some out => out.trim == ""

/-- Options accepted by `createInstance`; the `template` and `file` loading
branches of the source are not taken by these options, matching an
invocation without `--template`/`--file`. -/
structure CreateOptions where
  port : Option Nat := none
  version : Option String := none

/-- JavaScript `||` on optional strings: the empty string is falsy. -/
def jsOrStr (a b : Option String) : Option String :=
  match a with
  | some s => if s = "" then b else some s
  | none => b

/-- Default data root of `getDefaultGlobalConfig`. -/
def defaultDataRoot : String := "/var/lib/postgresql/pgforge"

/-- Default log root of `getDefaultGlobalConfig`. -/
def defaultLogRoot : String := "/var/log/postgresql/pgforge"

/-- Default server version of `getDefaultGlobalConfig`. -/
def defaultVersionStr : String := "15.3"

/-- Build a fresh instance record (`ConfigManager.createInstanceConfig`,
no template). -/
def createInstanceConfig (env : Env) (name : String)
    (options : CreateOptions) : PostgreSQLInstanceConfig :=
  let defaultPort : Nat :=
    match options.port with
    | some p => if p = 0 then 5432 else p
    | none => 5432
  let version :=
    (jsOrStr options.version
      (jsOrStr env.detectedVersion (some defaultVersionStr))).getD
      defaultVersionStr
  { apiVersion := "v1", kind := "PostgreSQLInstance",
    metadata :=
      { name,
        labels := some [("environment", "custom")],
        annots := some [("description", "PostgreSQL instance: " ++ name),
                        ("created", env.now)] },
    spec :=
      { version,
        network :=
          { port := defaultPort, bindAddress := "127.0.0.1",
            maxConnections := 100 },
        storage :=
          { dataDirectory := pathJoin defaultDataRoot name,
            logDirectory := pathJoin defaultLogRoot name },
        database :=
          { name := name ++ "_db", owner := name ++ "_user",
            encoding := "UTF8", locale := "en_US.UTF-8", timezone := "UTC" },
        security := some
          { ssl := some { enabled := true },
            authentication := some
              { method := "md5",
                allowedHosts := some ["127.0.0.1/32", "::1/128"] },
            audit := some { enabled := false } },
        performance := some
          { sharedBuffers := some "128MB", effectiveCacheSize := some "512MB",
            workMem := some "4MB", maintenanceWorkMem := some "64MB" },
        backup := some { enabled := false } },
    status := some { state := .stopped } }

/-- Ensure the data/log (and optional archive) directories exist
(`createInstanceDirectories`). -/
def createInstanceDirectories (fs : FS)
    (config : PostgreSQLInstanceConfig) : FS :=
  let fs1 := fsEnsureDir fs config.spec.storage.dataDirectory
  let fs2 := fsEnsureDir fs1 config.spec.storage.logDirectory
  match config.spec.storage.archiveDirectory with
  | some d => fsEnsureDir fs2 d
  | none => fs2

/-- Create the unix-socket subdirectory inside the data directory
(`createSocketDirectory`). -/
def createSocketDirectory (fs : FS) (config : PostgreSQLInstanceConfig) : FS :=
  let dd := config.spec.storage.dataDirectory
  match fsLookup fs dd with
  | some entries =>
      if entries.any (fun e => e.name == "sockets" && e.isDir) then fs
      else fsSet fs dd (entries ++ [{ name := "sockets", isDir := true }])
  | none => fsSet fs dd [{ name := "sockets", isDir := true }]

/-- Cluster initialization (`initializeDatabase`): locate `initdb`, run the
directory-preparation guard, then initialize; a successful `initdb` fills
the data directory with the cluster files. -/
def initializeDatabase (env : Env) (fs : FS)
    (config : PostgreSQLInstanceConfig) : Except PgErr Unit × FS :=
  match findPostgreSQLBinary env "initdb" config.spec.version with
  | .error e => (.error e, fs)
  | .ok _ =>
    match ensureDataDirectoryIsEmpty fs config.spec.storage.dataDirectory with
    | .error e => (.error e, fs)
    | .ok fs1 =>
        if env.initdbOk then
          (.ok (), fsSet fs1 config.spec.storage.dataDirectory env.clusterFiles)
        else (.error .initdbFailed, fs1)

/-- Teardown signals sent to the temporary bootstrap server (the `finally`
block of `createDatabaseAndUser`): graceful terminate, bounded wait,
escalate to a forceful kill when still alive. -/
def stopTempServerActions (env : Env) : List ProcAction :=
  match env.tempPid with
  | none => []
  | some pid =>
      if env.diesOnTerm pid then [.sigterm pid] else [.sigterm pid, .sigkill pid]

/-- Bootstrap provisioning (`createDatabaseAndUser`): generate and record
the owner password, spawn the socket-only temporary server, poll readiness
(bounded; collapsed to its outcome `Env.readyOk`), run the provisioning SQL
(collapsed to `Env.sqlOk`), and always tear the temporary server down. -/
def createDatabaseAndUser (env : Env) (config : PostgreSQLInstanceConfig) :
    Except PgErr PostgreSQLInstanceConfig × List ProcAction :=
  let config1 :=
    { config with spec.database.password := some env.ownerPassword }
  match findPostgreSQLBinary env "postgres" config.spec.version with
  | .error e => (.error e, [])
  | .ok _ =>
    match findPostgreSQLBinary env "psql" config.spec.version with
    | .error e => (.error e, [])
    | .ok _ =>
      let spawnAct := ProcAction.spawned env.tempPid
      let teardown := stopTempServerActions env
      if !env.readyOk then (.error .readyTimeout, spawnAct :: teardown)
      else if !env.sqlOk then (.error .sqlFailed, spawnAct :: teardown)
      else (.ok config1, spawnAct :: teardown)

/-- Create a new instance (`InstanceManager.createInstance`, invoked
without `--file`). -/
def createInstance (env : Env) (store : ConfigStore) (fs : FS)
    (name : String) (options : CreateOptions) :
    Except PgErr PostgreSQLInstanceConfig × ConfigStore × FS
      × List ProcAction :=
  let config := createInstanceConfig env name options
  match getInstanceConfig store name with
  | some _ => (.error (.alreadyExists name), store, fs, [])
  | none =>
    if !(isPortAvailable env config.spec.network.port) then
      (.error (.portInUse config.spec.network.port), store, fs, [])
    else
      let fs1 := createInstanceDirectories fs config
      match initializeDatabase env fs1 config with
      | (.error e, fs2) => (.error e, store, fs2, [])
      | (.ok _, fs2) =>
        let fs3 := createSocketDirectory fs2 config
        match createDatabaseAndUser env config with
        | (.error e, acts) => (.error e, store, fs3, acts)
        | (.ok config2, acts) =>
          let fs4 := generateConfigFiles fs3 config2
          (.ok config2, saveInstanceConfig store config2, fs4, acts)

/-- Installation probe (`checkPostgreSQLInstalled`). -/
def checkPostgreSQLInstalled (env : Env) (version : String) :
    Except PgErr Unit :=
  match findPostgreSQLBinary env "postgres" version with
  | .ok _ => .ok ()
  | .error _ => .error (.notInstalled version)

/-- Direct-mode process start (`startPostgreSQLProcess`): spawn detached,
wait the fixed settle time, then confirm liveness by probing the pid; no
pid or a dead pid is a fatal start error. -/
def startPostgreSQLProcess (env : Env) (config : PostgreSQLInstanceConfig) :
    Except PgErr Nat × List ProcAction :=
  match findPostgreSQLBinary env "postgres" config.spec.version with
  | .error e => (.error e, [])
  | .ok _ =>
    match env.spawnPid with
    | none => (.error .spawnNoPid, [.spawned none])
    | some pid =>
        if env.procAlive pid then (.ok pid, [.spawned (some pid)])
        else (.error (.spawnDied pid), [.spawned (some pid)])

/-- State recorded for an instance (`config.status?.state`). -/
def statusState (c : PostgreSQLInstanceConfig) : Option InstanceState :=
  c.status.map (·.state)

/-- Start an instance (`InstanceManager.startInstance`). -/
def startInstance (env : Env) (store : ConfigStore) (name : String) :
    Except PgErr Unit × ConfigStore × List ProcAction :=
  match getInstanceConfig store name with
  | none => (.error (.notFound name), store, [])
  | some config =>
    if statusState config = some .running then
      (.error (.alreadyRunning name), store, [])
    else
      match checkPostgreSQLInstalled env config.spec.version with
      | .error e => (.error e, store, [])
      | .ok _ =>
        match startPostgreSQLProcess env config with
        | (.error e, acts) => (.error e, store, acts)
        | (.ok pid, acts) =>
          let newStatus : InstanceStatus :=
            { state := .running, pid := some pid, startTime := some env.now,
              version := some config.spec.version, connections := some 0 }
          let config2 := { config with status := some newStatus }
          (.ok (), saveInstanceConfig store config2, acts)

/-- Graceful stop of a direct-mode server (`stopPostgreSQLProcess`):
terminate signal, bounded liveness poll (collapsed to `Env.diesOnTerm`),
forceful kill on ceiling. -/
def stopPostgreSQLProcess (env : Env) (pid : Nat) : List ProcAction :=
  if env.diesOnTerm pid then [.sigterm pid] else [.sigterm pid, .sigkill pid]

/-- Stop an instance (`InstanceManager.stopInstance`). -/
def stopInstance (env : Env) (store : ConfigStore) (name : String) :
    Except PgErr Unit × ConfigStore × List ProcAction :=
  match getInstanceConfig store name with
  | none => (.error (.notFound name), store, [])
  | some config =>
    if statusState config = some .running then
      let acts :=
        match config.status.bind (·.pid) with
        | some pid => if pid = 0 then [] else stopPostgreSQLProcess env pid
        | none => []
      let newStatus : InstanceStatus :=
        { state := .stopped,
          lastRestart := config.status.bind (·.startTime),
          version := some config.spec.version, connections := some 0 }
      let config2 := { config with status := some newStatus }
      (.ok (), saveInstanceConfig store config2, acts)
    else (.error (.notRunning name), store, [])

/-- Whether the service-managed reconciliation branch of
`getInstanceStatus` runs. -/
def serviceEnabled (c : PostgreSQLInstanceConfig) : Bool :=
  match c.spec.service with
  | some s => s.enabled
  | none => false

/-- Read an instance's status (`InstanceManager.getInstanceStatus`): probe
the recorded pid and correct a stale `running` record; when service mode is
enabled and systemd is available, additionally merge the systemd unit state
into the record and persist it. -/
def getInstanceStatus (env : Env) (store : ConfigStore) (name : String) :
    Option PostgreSQLInstanceConfig × ConfigStore × List ProcAction :=
  match getInstanceConfig store name with
  | none => (none, store, [])
  | some config =>
    let corrected :=
      match config.status, config.status.bind (·.pid) with
      | some st, some pid =>
          if pid != 0 && !(env.procAlive pid) && st.state == InstanceState.running then
            let c := { config with status := some { st with state := .stopped } }
            (c, saveInstanceConfig store c)
          else (config, store)
      | _, _ => (config, store)
    let config1 := corrected.1
    let store1 := corrected.2
    if serviceEnabled config1 && env.systemdAvailable then
      let ss := env.serviceStatus name
      let st0 := config1.status.getD
        { state := .stopped, version := some config1.spec.version,
          connections := some 0 }
      let st1 := { st0 with service := some ss }
      let activated : InstanceStatus :=
        { st1 with state := .running, startTime := some env.now }
      let deactivated : InstanceStatus :=
        { st1 with state := .stopped, lastRestart := st1.startTime, startTime := none }
      let st2 :=
        if ss.active && st1.state == InstanceState.stopped then activated
        else if !ss.active && st1.state == InstanceState.running then deactivated
        else st1
      let c2 := { config1 with status := some st2 }
      (some c2, saveInstanceConfig store1 c2, [])
    else (some config1, store1, [])

/-- Sequential status sweep used by `listInstances`. -/
def listInstancesGo (env : Env) : List String → ConfigStore →
    List PostgreSQLInstanceConfig × ConfigStore × List ProcAction
  | [], store => ([], store, [])
  | n :: rest, store =>
    let r := getInstanceStatus env store n
    let t := listInstancesGo env rest r.2.1
    (r.1.toList ++ t.1, t.2.1, r.2.2 ++ t.2.2)

/-- List all instances (`InstanceManager.listInstances`): a status read per
known record name. -/
def listInstances (env : Env) (store : ConfigStore) :
    List PostgreSQLInstanceConfig × ConfigStore × List ProcAction :=
  listInstancesGo env (listInstanceNames store) store

/-- Options accepted by `removeInstance`. -/
structure RemoveOptions where
  backup : Bool := false
  force : Bool := false

/-- Remove an instance (`InstanceManager.removeInstance`): refuse a running
instance unless forced (stopping it first when forced), optionally request
the (stubbed) backup, then delete only the record; the data and log
directories are never touched. -/
def removeInstance (env : Env) (store : ConfigStore) (fs : FS)
    (name : String) (options : RemoveOptions) :
    Except PgErr Unit × ConfigStore × FS × List ProcAction :=
  match getInstanceConfig store name with
  | none => (.error (.notFound name), store, fs, [])
  | some config =>
    if statusState config == some InstanceState.running && !options.force then
      (.error (.runningNeedsForce name), store, fs, [])
    else
      let stopped :=
        if statusState config == some InstanceState.running then stopInstance env store name
        else (.ok (), store, [])
      match stopped with
      | (.error e, store1, acts) => (.error e, store1, fs, acts)
      | (.ok _, store1, acts) =>
        let store2 := (deleteInstance store1 name).1
        (.ok (), store2, fs, acts)

/-! ## Additional store/filesystem lemmas -/

/-- Keys of a store. -/
def storeKeys (store : ConfigStore) : List String := store.map (·.1)

/-- Well-formed store: one file per name, as on a real filesystem. -/
def storeWF (store : ConfigStore) : Prop := (storeKeys store).Nodup

theorem lookupStore_eq_none_of_not_mem (store : ConfigStore) (k : String)
    (h : k ∉ storeKeys store) : lookupStore store k = none := by
  induction store with
  | nil => rfl
  | cons hd tl ih =>
      obtain ⟨k₀, v₀⟩ := hd
      have h₁ : ¬(k = k₀ ∨ k ∈ storeKeys tl) := by simpa [storeKeys] using h
      push_neg at h₁
      show (if k₀ = k then some v₀ else lookupStore tl k) = none
      rw [if_neg (Ne.symm h₁.1)]
      exact ih h₁.2

theorem lookupStore_removeStore_ne (store : ConfigStore) (k k' : String)
    (h : k' ≠ k) :
    lookupStore (removeStore store k) k' = lookupStore store k' := by
  induction store with
  | nil => rfl
  | cons hd tl ih =>
      obtain ⟨k₀, v₀⟩ := hd
      show lookupStore (if k₀ = k then tl else (k₀, v₀) :: removeStore tl k) k'
          = if k₀ = k' then some v₀ else lookupStore tl k'
      by_cases h₀ : k₀ = k
      · subst h₀
        rw [if_pos rfl, if_neg (fun hh => h hh.symm)]
      · rw [if_neg h₀]
        show (if k₀ = k' then some v₀ else lookupStore (removeStore tl k) k')
            = if k₀ = k' then some v₀ else lookupStore tl k'
        by_cases h₁ : k₀ = k'
        · rw [if_pos h₁, if_pos h₁]
        · rw [if_neg h₁, if_neg h₁, ih]

theorem lookupStore_removeStore_self (store : ConfigStore) (k : String)
    (h : storeWF store) : lookupStore (removeStore store k) k = none := by
  induction store with
  | nil => rfl
  | cons hd tl ih =>
      obtain ⟨k₀, v₀⟩ := hd
      have h₁ : k₀ ∉ storeKeys tl ∧ (storeKeys tl).Nodup := by
        simpa [storeWF, storeKeys] using h
      show lookupStore (if k₀ = k then tl else (k₀, v₀) :: removeStore tl k) k
          = none
      by_cases h₀ : k₀ = k
      · subst h₀
        rw [if_pos rfl]
        exact lookupStore_eq_none_of_not_mem tl k₀ h₁.1
      · rw [if_neg h₀]
        show (if k₀ = k then some v₀ else lookupStore (removeStore tl k) k)
            = none
        rw [if_neg h₀]
        exact ih h₁.2

theorem storeKeys_setStore_of_mem (store : ConfigStore) (k : String)
    (v : StoredFile) (h : k ∈ storeKeys store) :
    storeKeys (setStore store k v) = storeKeys store := by
  induction store with
  | nil => simp [storeKeys] at h
  | cons hd tl ih =>
      obtain ⟨k₀, v₀⟩ := hd
      show storeKeys (if k₀ = k then (k, v) :: tl else (k₀, v₀) :: setStore tl k v)
          = storeKeys ((k₀, v₀) :: tl)
      by_cases h₀ : k₀ = k
      · subst h₀
        rw [if_pos rfl]
        rfl
      · rw [if_neg h₀]
        have h₁ : k ∈ storeKeys tl := by
          have := h
          simp only [storeKeys, List.map_cons, List.mem_cons] at this
          rcases this with hk | hk
          · exact absurd hk.symm h₀
          · simpa [storeKeys] using hk
        show k₀ :: storeKeys (setStore tl k v) = k₀ :: storeKeys tl
        rw [ih h₁]

theorem storeKeys_setStore_of_not_mem (store : ConfigStore) (k : String)
    (v : StoredFile) (h : k ∉ storeKeys store) :
    storeKeys (setStore store k v) = storeKeys store ++ [k] := by
  induction store with
  | nil => rfl
  | cons hd tl ih =>
      obtain ⟨k₀, v₀⟩ := hd
      have h₁ : ¬(k = k₀ ∨ k ∈ storeKeys tl) := by simpa [storeKeys] using h
      push_neg at h₁
      show storeKeys (if k₀ = k then (k, v) :: tl else (k₀, v₀) :: setStore tl k v)
          = storeKeys ((k₀, v₀) :: tl) ++ [k]
      rw [if_neg (Ne.symm h₁.1)]
      show k₀ :: storeKeys (setStore tl k v) = k₀ :: (storeKeys tl ++ [k])
      rw [ih h₁.2]

theorem storeWF_setStore (store : ConfigStore) (k : String) (v : StoredFile)
    (h : storeWF store) : storeWF (setStore store k v) := by
  unfold storeWF at h ⊢
  by_cases hmem : k ∈ storeKeys store
  · rw [storeKeys_setStore_of_mem store k v hmem]
    exact h
  · rw [storeKeys_setStore_of_not_mem store k v hmem]
    simp [List.nodup_append, h, hmem]

/-- Creating a directory elsewhere preserves an existing directory's
contents. -/
theorem fsEnsureDir_preserves (fs : FS) (d d' : String) (v : List DirEntry)
    (h : fsLookup fs d = some v) :
    fsLookup (fsEnsureDir fs d') d = some v := by
  unfold fsEnsureDir
  cases hl : fsLookup fs d' with
  | some _ => exact h
  | none =>
      have hne : d' ≠ d := fun hh => by rw [hh, h] at hl; cases hl
      rw [fsLookup_fsSet_ne fs d' d [] hne]
      exact h

/-! ## Claim theorems -/

/-- Baseline oracle environment used by the concrete witnesses. -/
def baseEnv : Env :=
  { pathExists := fun _ => true,
    whichResult := fun _ => none,
    netstatOutput := fun _ => none,
    procAlive := fun _ => true,
    spawnPid := some 100,
    tempPid := some 101,
    diesOnTerm := fun _ => true,
    systemdAvailable := false,
    serviceStatus := fun _ => ⟨false, false, "unknown"⟩,
    detectedVersion := none,
    ownerPassword := "ownerpw",
    now := "2024-01-01T00:00:00.000Z",
    initdbOk := true,
    clusterFiles := [{ name := "PG_VERSION", fileContent := "15" }],
    readyOk := true,
    sqlOk := true }

/-- C8: for every spec, saving the instance record and then getting it by
the same name returns a record equal to the input in every field. -/
theorem save_get_round_trip (store : ConfigStore)
    (config : PostgreSQLInstanceConfig) :
    getInstanceConfig (saveInstanceConfig store config)
      config.metadata.name = some config := by
  simp [getInstanceConfig, saveInstanceConfig]

theorem find?_append_of_some {α} {p : α → Bool} {a : List α} (b : List α)
    {x : α} (h : a.find? p = some x) : (a ++ b).find? p = some x := by
  induction a with
  | nil => simp [List.find?] at h
  | cons hd tl ih =>
      cases hp : p hd with
      | true =>
          rw [List.find?_cons_of_pos _ hp] at h
          rw [List.cons_append, List.find?_cons_of_pos _ hp]
          exact h
      | false =>
          rw [List.find?_cons_of_neg _ (by simp [hp])] at h
          rw [List.cons_append, List.find?_cons_of_neg _ (by simp [hp])]
          exact ih h

theorem find?_isSome_of_exists {α} {p : α → Bool} {l : List α}
    (h : ∃ x ∈ l, p x) : ∃ y, l.find? p = some y := by
  induction l with
  | nil => simp at h
  | cons hd tl ih =>
      cases hp : p hd with
      | true => exact ⟨hd, List.find?_cons_of_pos _ hp⟩
      | false =>
          rcases h with ⟨x, hx, hpx⟩
          rcases List.mem_cons.mp hx with hx | hx
          · rw [hx] at hpx; rw [hpx] at hp; cases hp
          · rcases ih ⟨x, hx, hpx⟩ with ⟨y, hy⟩
            exact ⟨y, by rw [List.find?_cons_of_neg _ (by simp [hp])]; exact hy⟩

/-- C9: the Binary Locator probes the candidate paths in the fixed priority
order exact-version vendor paths, major-version vendor paths, common generic
paths, then the `which` fallback, returning the first candidate that exists;
an exact-version vendor hit beats the `which` fallback, and the locator
fails exactly when every path probe and the fallback fail. -/
theorem binary_locator_priority_order (env : Env) (binary version : String) :
    binaryCandidatePaths binary version =
        vendorExactPaths binary version ++ vendorMajorPaths binary version
          ++ genericPaths binary ∧
    (∀ p, (binaryCandidatePaths binary version).find? env.pathExists = some p →
        findPostgreSQLBinary env binary version = .ok p) ∧
    ((∃ p ∈ vendorExactPaths binary version, env.pathExists p) →
        ∃ q ∈ vendorExactPaths binary version,
          findPostgreSQLBinary env binary version = .ok q) ∧
    ((binaryCandidatePaths binary version).find? env.pathExists = none →
      ∀ w, env.whichResult binary = some w → w.trim ≠ "" →
        findPostgreSQLBinary env binary version = .ok w.trim) ∧
    ((binaryCandidatePaths binary version).find? env.pathExists = none ↔
      ∀ p ∈ binaryCandidatePaths binary version, ¬ env.pathExists p) ∧
    ((∃ e, findPostgreSQLBinary env binary version = .error e) ↔
      (binaryCandidatePaths binary version).find? env.pathExists = none ∧
        (env.whichResult binary = none ∨
          ∃ w, env.whichResult binary = some w ∧ w.trim = "")) := by
  refine ⟨rfl, ?_, ?_, ?_, List.find?_eq_none, ?_⟩
  · intro p hp
    simp [findPostgreSQLBinary, hp]
  · intro hex
    rcases find?_isSome_of_exists hex with ⟨q, hq⟩
    refine ⟨q, List.mem_of_find?_eq_some hq, ?_⟩
    have : (binaryCandidatePaths binary version).find? env.pathExists
        = some q := by
      show ((vendorExactPaths binary version ++ vendorMajorPaths binary version
        ++ genericPaths binary).find? env.pathExists) = some q
      rw [List.append_assoc]
      exact find?_append_of_some _ hq
    simp [findPostgreSQLBinary, this]
  · intro hnone w hw htrim
    simp [findPostgreSQLBinary, hnone, hw, htrim]
  · constructor
    · rintro ⟨e, he⟩
      unfold findPostgreSQLBinary at he
      cases hf : (binaryCandidatePaths binary version).find? env.pathExists with
      | some p => simp [hf] at he
      | none =>
          simp only [hf] at he
          refine ⟨rfl, ?_⟩
          cases hw : env.whichResult binary with
          | none => exact Or.inl rfl
          | some w =>
              simp only [hw] at he
              by_cases ht : w.trim = ""
              · exact Or.inr ⟨w, rfl, ht⟩
              · simp [ht] at he
    · rintro ⟨hf, hw⟩
      rcases hw with hw | ⟨w, hw, ht⟩
      · exact ⟨.binaryNotFound binary version,
          by simp [findPostgreSQLBinary, hf, hw]⟩
      · exact ⟨.binaryNotFound binary version,
          by simp [findPostgreSQLBinary, hf, hw, ht]⟩

/-- Environment for the C9 witness: only the exact-version vendor path of
`psql` exists on disk, and `which` would also answer. -/
def locEnv : Env :=
  { baseEnv with
    pathExists := fun p => p == "/usr/lib/postgresql/15.3/bin/psql",
    whichResult := fun _ => some "/usr/bin/psql" }

/-- Witness for C9 at a concrete environment: the exact-version vendor path
is returned even though the PATH fallback would answer too. -/
theorem binary_locator_priority_order_witness :
    findPostgreSQLBinary locEnv "psql" "15.3" =
      .ok "/usr/lib/postgresql/15.3/bin/psql" := by
  exact (binary_locator_priority_order locEnv "psql" "15.3").2.1
    "/usr/lib/postgresql/15.3/bin/psql" rfl

/-- C5: `start` on a running instance and `stop` on a non-running instance
fail with the corresponding conflict error without changing the record, and
both report not-found when no record with the name exists. -/
theorem start_stop_state_conflict_errors (env : Env) (store : ConfigStore)
    (name : String) :
    (getInstanceConfig store name = none →
      startInstance env store name = (.error (.notFound name), store, []) ∧
      stopInstance env store name = (.error (.notFound name), store, [])) ∧
    (∀ config, getInstanceConfig store name = some config →
      statusState config = some .running →
      startInstance env store name =
        (.error (.alreadyRunning name), store, [])) ∧
    (∀ config, getInstanceConfig store name = some config →
      statusState config ≠ some .running →
      stopInstance env store name = (.error (.notRunning name), store, [])) := by
  refine ⟨?_, ?_, ?_⟩
  · intro h
    exact ⟨by simp [startInstance, h], by simp [stopInstance, h]⟩
  · intro config h hrun
    simp [startInstance, h, hrun]
  · intro config h hrun
    simp [stopInstance, h, hrun]

/-- Concrete record of a running instance used by the witnesses. -/
def wConfigRunning : PostgreSQLInstanceConfig :=
  { apiVersion := "v1", kind := "PostgreSQLInstance",
    metadata := { name := "alpha" },
    spec :=
      { version := "15.3",
        network :=
          { port := 5433, bindAddress := "127.0.0.1", maxConnections := 100 },
        storage :=
          { dataDirectory := "/var/lib/postgresql/pgforge/alpha",
            logDirectory := "/var/log/postgresql/pgforge/alpha" },
        database :=
          { name := "alpha_db", owner := "alpha_user", encoding := "UTF8",
            locale := "en_US.UTF-8", timezone := "UTC" } },
    status := some
      { state := .running, pid := some 42, startTime := some "t1" } }

/-- Concrete record of a stopped instance used by the witnesses. -/
def wConfigStopped : PostgreSQLInstanceConfig :=
  { apiVersion := "v1", kind := "PostgreSQLInstance",
    metadata := { name := "beta" },
    spec :=
      { version := "15.3",
        network :=
          { port := 5434, bindAddress := "127.0.0.1", maxConnections := 100 },
        storage :=
          { dataDirectory := "/var/lib/postgresql/pgforge/beta",
            logDirectory := "/var/log/postgresql/pgforge/beta" },
        database :=
          { name := "beta_db", owner := "beta_user", encoding := "UTF8",
            locale := "en_US.UTF-8", timezone := "UTC" } },
    status := some { state := .stopped } }

/-- Store holding only the running record. -/
def wStoreRunning : ConfigStore := saveInstanceConfig [] wConfigRunning

/-- Store holding only the stopped record. -/
def wStoreStopped : ConfigStore := saveInstanceConfig [] wConfigStopped

/-- Witness for C5 at concrete records: conflict on `start` of a running
instance, conflict on `stop` of a stopped instance, not-found on both when
the record is absent. -/
theorem start_stop_state_conflict_errors_witness :
    startInstance baseEnv wStoreRunning "alpha" =
      (.error (.alreadyRunning "alpha"), wStoreRunning, []) ∧
    stopInstance baseEnv wStoreStopped "beta" =
      (.error (.notRunning "beta"), wStoreStopped, []) ∧
    startInstance baseEnv [] "ghost" = (.error (.notFound "ghost"), [], []) ∧
    stopInstance baseEnv [] "ghost" = (.error (.notFound "ghost"), [], []) := by
  have hrun : getInstanceConfig wStoreRunning "alpha" = some wConfigRunning := by
    simp [wStoreRunning, getInstanceConfig, saveInstanceConfig, wConfigRunning]
  have hstop : getInstanceConfig wStoreStopped "beta" = some wConfigStopped := by
    simp [wStoreStopped, getInstanceConfig, saveInstanceConfig, wConfigStopped]
  have hghost :
      startInstance baseEnv [] "ghost" = (.error (.notFound "ghost"), [], []) ∧
      stopInstance baseEnv [] "ghost" = (.error (.notFound "ghost"), [], []) :=
    (start_stop_state_conflict_errors baseEnv [] "ghost").1 rfl
  refine ⟨?_, ?_, hghost.1, hghost.2⟩
  · exact (start_stop_state_conflict_errors baseEnv wStoreRunning "alpha").2.1
      wConfigRunning hrun (by simp [wConfigRunning, statusState])
  · exact (start_stop_state_conflict_errors baseEnv wStoreStopped "beta").2.2
      wConfigStopped hstop (by simp [wConfigStopped, statusState])

/-- The record as rewritten by the stale running-to-stopped correction. -/
def staleCorrected (config : PostgreSQLInstanceConfig)
    (st : InstanceStatus) : PostgreSQLInstanceConfig :=
  { config with status := some { st with state := .stopped } }

/-- C6: for a record persisted as `running` with a recorded pid that is no
longer live, in direct mode, `status` persists the corrected `stopped`
record and returns it. -/
theorem status_corrects_dead_pid_to_stopped (env : Env) (store : ConfigStore)
    (name : String) (config : PostgreSQLInstanceConfig) (st : InstanceStatus)
    (pid : Nat)
    (hget : getInstanceConfig store name = some config)
    (hst : config.status = some st)
    (hpid : st.pid = some pid) (hpid0 : pid ≠ 0)
    (hdead : env.procAlive pid = false)
    (hrun : st.state = .running)
    (hsvc : serviceEnabled config = false) :
    getInstanceStatus env store name =
      (some (staleCorrected config st),
       saveInstanceConfig store (staleCorrected config st), []) ∧
    statusState (staleCorrected config st) = some .stopped := by
  have hb : (pid != 0) = true := by simpa using hpid0
  constructor
  · cases hsos : config.spec.service with
    | none =>
        simp [getInstanceStatus, hget, hst, hpid, hb, hdead, hrun,
          staleCorrected, serviceEnabled, hsos]
    | some s =>
        have hse : s.enabled = false := by
          simpa [serviceEnabled, hsos] using hsvc
        simp [getInstanceStatus, hget, hst, hpid, hb, hdead, hrun,
          staleCorrected, serviceEnabled, hsos, hse]
  · simp [statusState, staleCorrected]

/-- Environment in which every pid probe reports the process gone. -/
def envDead : Env := { baseEnv with procAlive := fun _ => false }

/-- Witness for C6: the concrete running record with pid 42 and an
environment where the pid is gone. -/
theorem status_corrects_dead_pid_to_stopped_witness :
    getInstanceStatus envDead wStoreRunning "alpha" =
      (some (staleCorrected wConfigRunning
         { state := .running, pid := some 42, startTime := some "t1" }),
       saveInstanceConfig wStoreRunning (staleCorrected wConfigRunning
         { state := .running, pid := some 42, startTime := some "t1" }),
       []) := by
  have hget : getInstanceConfig wStoreRunning "alpha" = some wConfigRunning := by
    simp [wStoreRunning, getInstanceConfig, saveInstanceConfig, wConfigRunning]
  exact (status_corrects_dead_pid_to_stopped envDead wStoreRunning "alpha"
    wConfigRunning _ 42 hget rfl rfl (by decide) rfl rfl rfl).1

theorem startPostgreSQLProcess_ok_iff (env : Env)
    (config : PostgreSQLInstanceConfig) (pid : Nat) (acts : List ProcAction)
    (h : startPostgreSQLProcess env config = (.ok pid, acts)) :
    env.spawnPid = some pid ∧ env.procAlive pid = true := by
  unfold startPostgreSQLProcess at h
  cases hf : findPostgreSQLBinary env "postgres" config.spec.version with
  | error e => simp [hf] at h
  | ok _ =>
      simp only [hf] at h
      cases hsp : env.spawnPid with
      | none => simp [hsp] at h
      | some q =>
          simp only [hsp] at h
          by_cases ha : env.procAlive q
          · simp only [ha, if_true, Prod.mk.injEq, Except.ok.injEq] at h
            obtain ⟨h₁, -⟩ := h
            subst h₁
            exact ⟨rfl, ha⟩
          · simp [ha] at h

/-- The record as persisted by a successful `start`. -/
def startedRecord (env : Env) (config : PostgreSQLInstanceConfig)
    (pid : Nat) : PostgreSQLInstanceConfig :=
  let st : InstanceStatus :=
    { state := .running, pid := some pid, startTime := some env.now,
      version := some config.spec.version, connections := some 0 }
  { config with status := some st }

/-- The record as persisted by a successful `stop`. -/
def stoppedRecord (config : PostgreSQLInstanceConfig) :
    PostgreSQLInstanceConfig :=
  let st : InstanceStatus :=
    { state := .stopped, lastRestart := config.status.bind (·.startTime),
      version := some config.spec.version, connections := some 0 }
  { config with status := some st }

/-- C4: `start` and `stop` persist the updated record only after the
OS-level action succeeds: every `start` failure (missing record, conflict,
missing binary, failed spawn, unconfirmed liveness) leaves the store
unchanged, and a `start` success implies the spawn produced a pid that was
confirmed live before the save; symmetrically for `stop`. -/
theorem start_persists_only_after_success (env : Env) (store : ConfigStore)
    (name : String) :
    (∀ e store1 acts, startInstance env store name = (.error e, store1, acts) →
      store1 = store) ∧
    (∀ store1 acts, startInstance env store name = (.ok (), store1, acts) →
      ∃ config pid, getInstanceConfig store name = some config ∧
        env.spawnPid = some pid ∧ env.procAlive pid = true ∧
        store1 = saveInstanceConfig store (startedRecord env config pid)) ∧
    (∀ e store1 acts, stopInstance env store name = (.error e, store1, acts) →
      store1 = store) ∧
    (∀ store1 acts, stopInstance env store name = (.ok (), store1, acts) →
      ∃ config, getInstanceConfig store name = some config ∧
        statusState config = some .running ∧
        store1 = saveInstanceConfig store (stoppedRecord config)) := by
  refine ⟨?_, ?_, ?_, ?_⟩
  · intro e store1 acts h
    cases hget : getInstanceConfig store name with
    | none => simp [startInstance, hget] at h; exact h.2.1.symm
    | some config =>
        by_cases hrun : statusState config = some .running
        · simp [startInstance, hget, hrun] at h; exact h.2.1.symm
        · cases hchk : checkPostgreSQLInstalled env config.spec.version with
          | error e' =>
              simp [startInstance, hget, hrun, hchk] at h
              exact h.2.1.symm
          | ok _ =>
              cases hsp : startPostgreSQLProcess env config with
              | mk r acts₀ =>
                  cases r with
                  | error e' =>
                      simp [startInstance, hget, hrun, hchk, hsp] at h
                      exact h.2.1.symm
                  | ok pid =>
                      simp [startInstance, hget, hrun, hchk, hsp] at h
  · intro store1 acts h
    cases hget : getInstanceConfig store name with
    | none => simp [startInstance, hget] at h
    | some config =>
        by_cases hrun : statusState config = some .running
        · simp [startInstance, hget, hrun] at h
        · cases hchk : checkPostgreSQLInstalled env config.spec.version with
          | error e' => simp [startInstance, hget, hrun, hchk] at h
          | ok _ =>
              cases hsp : startPostgreSQLProcess env config with
              | mk r acts₀ =>
                  cases r with
                  | error e' => simp [startInstance, hget, hrun, hchk, hsp] at h
                  | ok pid =>
                      simp [startInstance, hget, hrun, hchk, hsp] at h
                      obtain ⟨hpid, halive⟩ :=
                        startPostgreSQLProcess_ok_iff env config pid acts₀ hsp
                      refine ⟨config, pid, rfl, hpid, halive, ?_⟩
                      exact h.1.symm.trans (by simp [startedRecord])
  · intro e store1 acts h
    cases hget : getInstanceConfig store name with
    | none => simp [stopInstance, hget] at h; exact h.2.1.symm
    | some config =>
        by_cases hrun : statusState config = some .running
        · simp [stopInstance, hget, hrun] at h
        · simp [stopInstance, hget, hrun] at h
          exact h.2.1.symm
  · intro store1 acts h
    cases hget : getInstanceConfig store name with
    | none => simp [stopInstance, hget] at h
    | some config =>
        by_cases hrun : statusState config = some .running
        · simp [stopInstance, hget, hrun] at h
          refine ⟨config, rfl, hrun, ?_⟩
          exact h.1.symm.trans (by simp [stoppedRecord])
        · simp [stopInstance, hget, hrun] at h

/-- Environment in which the direct spawn's process dies immediately. -/
def envSpawnDies : Env :=
  { baseEnv with spawnPid := some 77, procAlive := fun _ => false }

/-- Witness for C4: starting the concrete stopped instance in an
environment where the spawned process dies leaves the store unchanged,
while a successful start persists exactly the confirmed-pid record. -/
theorem start_persists_only_after_success_witness :
    (startInstance envSpawnDies wStoreStopped "beta").2.1 = wStoreStopped ∧
    (startInstance baseEnv wStoreStopped "beta").2.1 =
      saveInstanceConfig wStoreStopped
        (startedRecord baseEnv wConfigStopped 100) := by
  constructor
  · exact (start_persists_only_after_success envSpawnDies wStoreStopped
      "beta").1 (.spawnDied 77) _ _ rfl
  · obtain ⟨config, pid, hget, hpid, -, hsave⟩ :=
      (start_persists_only_after_success baseEnv wStoreStopped "beta").2.1
        (startInstance baseEnv wStoreStopped "beta").2.1
        (startInstance baseEnv wStoreStopped "beta").2.2 rfl
    have hg : getInstanceConfig wStoreStopped "beta" = some wConfigStopped := by
      simp [wStoreStopped, getInstanceConfig, saveInstanceConfig,
        wConfigStopped]
    have hc : wConfigStopped = config := Option.some.inj (hg.symm.trans hget)
    have hp100 : (some 100 : Option Nat) = some pid := hpid
    have hp : (100 : Nat) = pid := Option.some.inj hp100
    rw [hsave, ← hc, ← hp]

/-- Signals `stopInstance` sends for a record (its `acts` component). -/
def stopInstanceActs (env : Env) (config : PostgreSQLInstanceConfig) :
    List ProcAction :=
  match config.status.bind (·.pid) with
  | some pid => if pid = 0 then [] else stopPostgreSQLProcess env pid
  | none => []

theorem lookupStore_of_get_some (store : ConfigStore) (name : String)
    (config : PostgreSQLInstanceConfig)
    (h : getInstanceConfig store name = some config) :
    ∃ d, lookupStore store name = some (.content d) ∧
      decodeConfig d = some config := by
  unfold getInstanceConfig at h
  cases hl : lookupStore store name with
  | none => rw [hl] at h; cases h
  | some f =>
      cases f with
      | unreadable => rw [hl] at h; cases h
      | unparseable => rw [hl] at h; cases h
      | content d =>
          rw [hl] at h
          exact ⟨d, rfl, h⟩

/-- C7: `remove` refuses a running instance without `force`; in every case
(with or without `force` and `backup`) it never touches the filesystem —
the data and log directories survive — and on success it deletes exactly
the named record, leaving every other record as it was. -/
theorem remove_deletes_only_record (env : Env) (store : ConfigStore)
    (fs : FS) (name : String) (options : RemoveOptions)
    (config : PostgreSQLInstanceConfig)
    (hget : getInstanceConfig store name = some config)
    (hname : config.metadata.name = name)
    (hwf : storeWF store) :
    (statusState config = some .running → options.force = false →
      removeInstance env store fs name options =
        (.error (.runningNeedsForce name), store, fs, [])) ∧
    (∀ r store1 fs1 acts,
      removeInstance env store fs name options = (r, store1, fs1, acts) →
      fs1 = fs) ∧
    (∀ store1 fs1 acts,
      removeInstance env store fs name options = (.ok (), store1, fs1, acts) →
      lookupStore store1 name = none ∧
      ∀ k, k ≠ name → lookupStore store1 k = lookupStore store k) := by
  refine ⟨?_, ?_, ?_⟩
  · intro hrun hforce
    have hb : (statusState config == some InstanceState.running
        && !options.force) = true := by
      simp [hrun, hforce]
    simp [removeInstance, hget, hb]
  · intro r store1 fs1 acts h
    simp only [removeInstance, hget] at h
    split at h
    · simp only [Prod.mk.injEq] at h
      exact h.2.2.1.symm
    · split at h
      · simp only [Prod.mk.injEq] at h
        exact h.2.2.1.symm
      · simp only [Prod.mk.injEq] at h
        exact h.2.2.1.symm
  · intro store1 fs1 acts h
    obtain ⟨d, hl, -⟩ := lookupStore_of_get_some store name config hget
    by_cases hr : statusState config = some InstanceState.running
    · have hbeq : (statusState config == some InstanceState.running) = true := by
        simp [hr]
      by_cases hf : options.force
      · have hsaved : stopInstance env store name =
            (.ok (), saveInstanceConfig store (stoppedRecord config),
              stopInstanceActs env config) := by
          simp [stopInstance, hget, hr, stoppedRecord, stopInstanceActs]
        have hkey : (stoppedRecord config).metadata.name = name := by
          simpa [stoppedRecord] using hname
        simp [removeInstance, hget, hbeq, hf, hsaved, deleteInstance,
          saveInstanceConfig, hkey, lookupStore_setStore_self,
          Prod.mk.injEq] at h
        obtain ⟨hstore, -, -⟩ := h
        subst hstore
        have hwf2 : storeWF (setStore store name
            (.content (encodeConfig (stoppedRecord config)))) :=
          storeWF_setStore store _ _ hwf
        refine ⟨lookupStore_removeStore_self _ name hwf2, ?_⟩
        intro k hk
        rw [lookupStore_removeStore_ne _ _ _ hk,
          lookupStore_setStore_ne _ _ _ _ (fun hh => hk hh.symm)]
      · have hf0 : options.force = false := by
          simpa using hf
        simp [removeInstance, hget, hbeq, hf0] at h
    · have hbeq : (statusState config == some InstanceState.running) = false := by
        simpa using hr
      simp [removeInstance, hget, hbeq, deleteInstance, hl,
        Prod.mk.injEq] at h
      obtain ⟨hstore, -, -⟩ := h
      subst hstore
      refine ⟨lookupStore_removeStore_self store name hwf, ?_⟩
      intro k hk
      exact lookupStore_removeStore_ne store name k hk

/-- Filesystem used by the remove witnesses: the stopped instance's data
directory with one cluster file. -/
def wFsBeta : FS :=
  [("/var/lib/postgresql/pgforge/beta", [{ name := "PG_VERSION", fileContent := "15" }])]

/-- Witness for C7: removing the running instance without force fails and
changes nothing; removing the stopped instance leaves the filesystem
untouched and deletes the record. -/
theorem remove_deletes_only_record_witness :
    removeInstance baseEnv wStoreRunning wFsBeta "alpha" {} =
      (.error (.runningNeedsForce "alpha"), wStoreRunning, wFsBeta, []) ∧
    (removeInstance baseEnv wStoreStopped wFsBeta "beta" {}).2.2.1 = wFsBeta ∧
    lookupStore (removeInstance baseEnv wStoreStopped wFsBeta "beta" {}).2.1
      "beta" = none := by
  have hgetA : getInstanceConfig wStoreRunning "alpha" = some wConfigRunning := by
    simp [wStoreRunning, getInstanceConfig, saveInstanceConfig, wConfigRunning]
  have hwfA : storeWF wStoreRunning := by
    simp [storeWF, storeKeys, wStoreRunning, saveInstanceConfig, setStore,
      wConfigRunning]
  have hgetB : getInstanceConfig wStoreStopped "beta" = some wConfigStopped := by
    simp [wStoreStopped, getInstanceConfig, saveInstanceConfig, wConfigStopped]
  have hwfB : storeWF wStoreStopped := by
    simp [storeWF, storeKeys, wStoreStopped, saveInstanceConfig, setStore,
      wConfigStopped]
  refine ⟨?_, ?_, ?_⟩
  · exact (remove_deletes_only_record baseEnv wStoreRunning wFsBeta "alpha"
      {} wConfigRunning hgetA rfl hwfA).1 rfl rfl
  · exact (remove_deletes_only_record baseEnv wStoreStopped wFsBeta "beta"
      {} wConfigStopped hgetB rfl hwfB).2.1
      (removeInstance baseEnv wStoreStopped wFsBeta "beta" {}).1
      (removeInstance baseEnv wStoreStopped wFsBeta "beta" {}).2.1
      (removeInstance baseEnv wStoreStopped wFsBeta "beta" {}).2.2.1
      (removeInstance baseEnv wStoreStopped wFsBeta "beta" {}).2.2.2 rfl
  · exact ((remove_deletes_only_record baseEnv wStoreStopped wFsBeta "beta"
      {} wConfigStopped hgetB rfl hwfB).2.2
      (removeInstance baseEnv wStoreStopped wFsBeta "beta" {}).2.1
      (removeInstance baseEnv wStoreStopped wFsBeta "beta" {}).2.2.1
      (removeInstance baseEnv wStoreStopped wFsBeta "beta" {}).2.2.2 rfl).1

/-- Status reads emit no process actions: they never spawn or kill. -/
theorem getInstanceStatus_actions (env : Env) (store : ConfigStore)
    (name : String) : (getInstanceStatus env store name).2.2 = [] := by
  cases hget : getInstanceConfig store name with
  | none => simp [getInstanceStatus, hget]
  | some config =>
      simp only [getInstanceStatus, hget]
      split <;> rfl

/-- The status sweep of `listInstances` emits no process actions either. -/
theorem listInstancesGo_actions (env : Env) (names : List String)
    (store : ConfigStore) : (listInstancesGo env names store).2.2 = [] := by
  induction names generalizing store with
  | nil => rfl
  | cons n rest ih =>
      simp only [listInstancesGo]
      simp [getInstanceStatus_actions, ih]

/-- Record of an instance in service-managed mode, persisted as stopped. -/
def svcConfig : PostgreSQLInstanceConfig :=
  { apiVersion := "v1", kind := "PostgreSQLInstance",
    metadata := { name := "svc" },
    spec :=
      { version := "15.3",
        network :=
          { port := 5435, bindAddress := "127.0.0.1", maxConnections := 100 },
        storage :=
          { dataDirectory := "/var/lib/postgresql/pgforge/svc",
            logDirectory := "/var/log/postgresql/pgforge/svc" },
        database :=
          { name := "svc_db", owner := "svc_user", encoding := "UTF8",
            locale := "en_US.UTF-8", timezone := "UTC" },
        service := some { enabled := true, autoStart := true } },
    status := some { state := .stopped } }

/-- Store holding only the service-managed record. -/
def svcStore : ConfigStore := saveInstanceConfig [] svcConfig

/-- Environment where systemd is available and reports the unit active. -/
def svcEnv : Env :=
  { baseEnv with
    systemdAvailable := true,
    serviceStatus := fun _ => { enabled := true, active := true, status := "active" } }

/-- The record after `status` merges the active systemd unit state. -/
def svcConfigAfter : PostgreSQLInstanceConfig :=
  let st : InstanceStatus :=
    { state := .running, startTime := some "2024-01-01T00:00:00.000Z",
      service := some { enabled := true, active := true, status := "active" } }
  { svcConfig with status := some st }

/-- Counterexample to C3: for a service-managed instance persisted as
`stopped` whose systemd unit is active, `status` silently rewrites the
persisted state in the opposite direction, stopped to running — so the
stale running-to-stopped correction is not the only silent rewrite. -/
theorem status_rewrites_stopped_to_running :
    statusState svcConfig = some .stopped ∧
    getInstanceConfig svcStore "svc" = some svcConfig ∧
    getInstanceStatus svcEnv svcStore "svc" =
      (some svcConfigAfter, saveInstanceConfig svcStore svcConfigAfter, []) ∧
    statusState svcConfigAfter = some .running ∧
    getInstanceConfig (getInstanceStatus svcEnv svcStore "svc").2.1 "svc" =
      some svcConfigAfter := by
  have h3 : getInstanceStatus svcEnv svcStore "svc" =
      (some svcConfigAfter, saveInstanceConfig svcStore svcConfigAfter, []) := rfl
  refine ⟨rfl, ?_, h3, rfl, ?_⟩
  · simp [svcStore, getInstanceConfig, saveInstanceConfig, svcConfig]
  · rw [h3]
    simp [getInstanceConfig, saveInstanceConfig, svcConfigAfter, svcConfig]

/-- C3 (amended): in direct mode (service reconciliation inactive) the stale
running-to-stopped correction is the only silent rewrite `status` performs —
otherwise the persisted store is returned unchanged — and `status` and
`list` never spawn or kill processes (they emit no process actions; the pid
probe is a read).  In service-managed mode `status` additionally reconciles
the persisted state with the supervisor's active flag, in both directions
(see the counterexample). -/
theorem status_direct_mode_only_stale_correction (env : Env)
    (store : ConfigStore) (name : String)
    (hdirect : ∀ c, getInstanceConfig store name = some c →
      serviceEnabled c = false) :
    ((getInstanceStatus env store name).2.1 = store ∨
      ∃ config st pid, getInstanceConfig store name = some config ∧
        config.status = some st ∧ st.pid = some pid ∧
        st.state = .running ∧ pid ≠ 0 ∧ env.procAlive pid = false ∧
        (getInstanceStatus env store name).2.1 =
          saveInstanceConfig store (staleCorrected config st)) ∧
    (getInstanceStatus env store name).2.2 = [] ∧
    (∀ store0 : ConfigStore, (listInstances env store0).2.2 = []) := by
  refine ⟨?_, getInstanceStatus_actions env store name, ?_⟩
  · cases hget : getInstanceConfig store name with
    | none => left; simp [getInstanceStatus, hget]
    | some config =>
        have hsvc := hdirect config hget
        cases hsos : config.spec.service with
        | some s =>
            have hse : s.enabled = false := by
              simpa [serviceEnabled, hsos] using hsvc
            cases hst : config.status with
            | none =>
                left
                simp [getInstanceStatus, hget, hst, serviceEnabled, hsos, hse]
            | some st =>
                cases hpid : st.pid with
                | none =>
                    left
                    simp [getInstanceStatus, hget, hst, hpid, serviceEnabled,
                      hsos, hse]
                | some pid =>
                    by_cases hcond : (pid != 0 && !(env.procAlive pid)
                        && st.state == InstanceState.running) = true
                    · right
                      have hparts := hcond
                      simp only [Bool.and_eq_true, bne_iff_ne, ne_eq,
                        Bool.not_eq_true', beq_iff_eq] at hparts
                      refine ⟨config, st, pid, rfl, hst, hpid,
                        hparts.2, hparts.1.1, hparts.1.2, ?_⟩
                      simp [getInstanceStatus, hget, hst, hpid, hcond,
                        staleCorrected, serviceEnabled, hsos, hse]
                    · left
                      have hc : (pid != 0 && !(env.procAlive pid)
                          && st.state == InstanceState.running) = false := by
                        simpa using hcond
                      simp [getInstanceStatus, hget, hst, hpid, hc,
                        serviceEnabled, hsos, hse]
        | none =>
            cases hst : config.status with
            | none =>
                left
                simp [getInstanceStatus, hget, hst, serviceEnabled, hsos]
            | some st =>
                cases hpid : st.pid with
                | none =>
                    left
                    simp [getInstanceStatus, hget, hst, hpid, serviceEnabled,
                      hsos]
                | some pid =>
                    by_cases hcond : (pid != 0 && !(env.procAlive pid)
                        && st.state == InstanceState.running) = true
                    · right
                      have hparts := hcond
                      simp only [Bool.and_eq_true, bne_iff_ne, ne_eq,
                        Bool.not_eq_true', beq_iff_eq] at hparts
                      refine ⟨config, st, pid, rfl, hst, hpid,
                        hparts.2, hparts.1.1, hparts.1.2, ?_⟩
                      simp [getInstanceStatus, hget, hst, hpid, hcond,
                        staleCorrected, serviceEnabled, hsos]
                    · left
                      have hc : (pid != 0 && !(env.procAlive pid)
                          && st.state == InstanceState.running) = false := by
                        simpa using hcond
                      simp [getInstanceStatus, hget, hst, hpid, hc,
                        serviceEnabled, hsos]
  · intro store0
    simpa [listInstances] using
      listInstancesGo_actions env (listInstanceNames store0) store0

/-- Witness for C3 (amended) at the concrete direct-mode store: the status
read emits no process actions and performs exactly the stale correction. -/
theorem status_direct_mode_only_stale_correction_witness :
    (getInstanceStatus envDead wStoreRunning "alpha").2.2 = [] ∧
    (listInstances envDead wStoreRunning).2.2 = [] := by
  have hget : getInstanceConfig wStoreRunning "alpha" = some wConfigRunning := by
    simp [wStoreRunning, getInstanceConfig, saveInstanceConfig, wConfigRunning]
  have hd : ∀ c, getInstanceConfig wStoreRunning "alpha" = some c →
      serviceEnabled c = false := by
    intro c hc
    have : wConfigRunning = c := Option.some.inj (hget.symm.trans hc)
    rw [← this]
    rfl
  have h := status_direct_mode_only_stale_correction envDead wStoreRunning
    "alpha" hd
  exact ⟨h.2.1, h.2.2 wStoreRunning⟩

/-- Modelled from the spec: "its contents match a known signature set
(cluster metadata files, a socket subdirectory, or a configuration file
carrying this tool's generated-file marker comment)" — every entry of the
directory is one of the recognized artifacts. -/
def specContentsMatchSignatureSet (entries : List DirEntry) : Bool :=
  entries.all (fun e =>
    pgforgeIndicators.any (fun ind => strStartsWith e.name ind)
      || (e.name == "sockets" && e.isDir)
      || (e.name == "postgresql.conf"
            && containsText e.fileContent pgforgeMarkerText))

/-- A data directory mixing three recognized cluster artifacts with one
unrelated user file. -/
def mixedEntries : List DirEntry :=
  [{ name := "base", isDir := true }, { name := "global", isDir := true },
   { name := "pg_wal", isDir := true },
   { name := "secrets.txt", fileContent := "irreplaceable user data" }]

/-- Filesystem holding the mixed directory at the data-directory path the
generated spec for instance `m` uses. -/
def fsMixed : FS := [("/var/lib/postgresql/pgforge/m", mixedEntries)]

/-- The record `create m` returns on success. -/
def createdM : PostgreSQLInstanceConfig :=
  { createInstanceConfig baseEnv "m" {} with
      spec.database.password := some "ownerpw" }

/-- Counterexample to C1 as stated: the mixed directory's contents do not
match the known signature set (the spec's reading: `secrets.txt` is not a
cluster metadata file, a socket subdirectory, or a marker-carrying
configuration file), yet the classifier accepts it, `create` proceeds, the
directory is recursively erased, and the pre-existing unrelated file is
destroyed rather than left untouched. -/
theorem create_erases_mixed_unrecognized_contents :
    specContentsMatchSignatureSet mixedEntries = false ∧
    detectPartialInstallation mixedEntries = true ∧
    ensureDataDirectoryIsEmpty fsMixed "/var/lib/postgresql/pgforge/m" =
      .ok (fsSet fsMixed "/var/lib/postgresql/pgforge/m" []) ∧
    (createInstance baseEnv [] fsMixed "m" {}).1 = .ok createdM ∧
    ((fsLookup (createInstance baseEnv [] fsMixed "m" {}).2.2.1
        "/var/lib/postgresql/pgforge/m").getD []).all
      (fun e => e.name != "secrets.txt") = true := by
  refine ⟨by decide, by decide, rfl, rfl, by decide⟩

theorem filter_eq_nil_of_all_false {α} (p : α → Bool) (l : List α)
    (h : ∀ a ∈ l, p a = false) : l.filter p = [] := by
  induction l with
  | nil => rfl
  | cons hd tl ih =>
      rw [List.filter_cons, h hd (List.mem_cons_self hd tl)]
      exact ih fun a ha => h a (List.mem_cons_of_mem _ ha)

/-- C1 (amended): the directory-preparation guard erases a non-empty data
directory and lets `create` proceed exactly when the classifier accepts it
(a marker-carrying `postgresql.conf`, or at least 80 percent recognized
entries, or at least three recognized entries among at most ten); a
directory with no recognized entry is never accepted; and when the
classifier rejects, `create` fails with the unsafe-state error and every
pre-existing file in the data directory is left untouched. -/
theorem create_classifier_dichotomy (env : Env) (store : ConfigStore)
    (fs : FS) (name : String) (options : CreateOptions)
    (config : PostgreSQLInstanceConfig) (entries : List DirEntry) (p : String)
    (hconfig : config = createInstanceConfig env name options) :
    (∀ fs0 dir es, fsLookup fs0 dir = some es → es ≠ [] →
      ensureDataDirectoryIsEmpty fs0 dir =
        (if detectPartialInstallation es then .ok (fsSet fs0 dir [])
         else .error (.unsafeState dir (es.map (·.name))))) ∧
    (∀ es : List DirEntry, es ≠ [] →
      (es.all (fun e =>
        !(pgforgeIndicators.any (fun ind => strStartsWith e.name ind)))) = true →
      detectPartialInstallation es = false) ∧
    (getInstanceConfig store name = none →
     isPortAvailable env config.spec.network.port = true →
     findPostgreSQLBinary env "initdb" config.spec.version = .ok p →
     fsLookup fs config.spec.storage.dataDirectory = some entries →
     entries ≠ [] →
     detectPartialInstallation entries = false →
     createInstance env store fs name options =
       (.error (.unsafeState config.spec.storage.dataDirectory
          (entries.map (·.name))), store,
        createInstanceDirectories fs config, []) ∧
     fsLookup (createInstanceDirectories fs config)
       config.spec.storage.dataDirectory = some entries) := by
  refine ⟨?_, ?_, ?_⟩
  · intro fs0 dir es hl hne
    cases es with
    | nil => exact absurd rfl hne
    | cons e es0 => simp [ensureDataDirectoryIsEmpty, hl]
  · intro es hne hall
    have hall' : ∀ e ∈ es,
        (pgforgeIndicators.any (fun ind => strStartsWith e.name ind)) = false := by
      intro e he
      have := List.all_eq_true.mp hall e he
      simpa using this
    have hrec : (es.map (·.name)).filter
        (fun f => pgforgeIndicators.any (fun ind => strStartsWith f ind)) = [] := by
      apply filter_eq_nil_of_all_false
      intro f hf
      rcases List.mem_map.mp hf with ⟨e, he, rfl⟩
      exact hall' e he
    have hfind : es.find? (fun e => e.name == "postgresql.conf") = none := by
      apply List.find?_eq_none.mpr
      intro e he hbe
      have hname : e.name = "postgresql.conf" := by simpa using hbe
      have hfalse := hall' e he
      rw [hname] at hfalse
      have htrue : (pgforgeIndicators.any
          (fun ind => strStartsWith "postgresql.conf" ind)) = true := by decide
      rw [htrue] at hfalse
      cases hfalse
    have hne' : es.length ≠ 0 := by
      simpa using fun hh => hne (List.length_eq_zero.mp hh)
    have hlen : 0 < 4 * es.length := by omega
    simp only [detectPartialInstallation, hrec, hfind, List.length_map,
      List.length_nil, Bool.and_false, Nat.mul_zero, Nat.le_zero]
    simp [hne', Nat.mul_eq_zero]
  · intro hget hport hfind hfs hne hdet
    subst hconfig
    have harch : (createInstanceConfig env name options).spec.storage.archiveDirectory
        = none := rfl
    have hdirs : createInstanceDirectories fs (createInstanceConfig env name options)
        = fsEnsureDir
            (fsEnsureDir fs
              (createInstanceConfig env name options).spec.storage.dataDirectory)
            (createInstanceConfig env name options).spec.storage.logDirectory := by
      simp [createInstanceDirectories, harch]
    have hfs1 : fsLookup
        (createInstanceDirectories fs (createInstanceConfig env name options))
        (createInstanceConfig env name options).spec.storage.dataDirectory
        = some entries := by
      rw [hdirs]
      exact fsEnsureDir_preserves _ _ _ _ (fsEnsureDir_preserves _ _ _ _ hfs)
    have hensure : ensureDataDirectoryIsEmpty
        (createInstanceDirectories fs (createInstanceConfig env name options))
        (createInstanceConfig env name options).spec.storage.dataDirectory
        = .error (.unsafeState
            (createInstanceConfig env name options).spec.storage.dataDirectory
            (entries.map (·.name))) := by
      cases entries with
      | nil => exact absurd rfl hne
      | cons e es0 => simp [ensureDataDirectoryIsEmpty, hfs1, hdet]
    have hinit : initializeDatabase env
        (createInstanceDirectories fs (createInstanceConfig env name options))
        (createInstanceConfig env name options)
        = (.error (.unsafeState
            (createInstanceConfig env name options).spec.storage.dataDirectory
            (entries.map (·.name))),
           createInstanceDirectories fs (createInstanceConfig env name options)) := by
      simp [initializeDatabase, hfind, hensure]
    refine ⟨?_, hfs1⟩
    simp [createInstance, hget, hport, hinit]

/-- A data directory holding only unrelated, unrecognized files. -/
def unrecEntries : List DirEntry :=
  [{ name := "secrets.txt", fileContent := "user data" },
   { name := "notes.md", fileContent := "todo" }]

/-- Filesystem holding the unrecognized directory at the data-directory
path the generated spec for instance `c` uses. -/
def fsUnrec : FS := [("/var/lib/postgresql/pgforge/c", unrecEntries)]

/-- Witness for C1 (amended): creating instance `c` over a data directory
holding only unrelated files fails with the unsafe-state error and leaves
both files in place. -/
theorem create_classifier_dichotomy_witness :
    detectPartialInstallation unrecEntries = false ∧
    createInstance baseEnv [] fsUnrec "c" {} =
      (.error (.unsafeState "/var/lib/postgresql/pgforge/c"
         ["secrets.txt", "notes.md"]), [],
       createInstanceDirectories fsUnrec (createInstanceConfig baseEnv "c" {}),
       []) ∧
    fsLookup (createInstance baseEnv [] fsUnrec "c" {}).2.2.1
      "/var/lib/postgresql/pgforge/c" = some unrecEntries := by
  have h := create_classifier_dichotomy baseEnv [] fsUnrec "c" {}
    (createInstanceConfig baseEnv "c" {}) unrecEntries
    "/usr/lib/postgresql/15.3/bin/initdb" rfl
  have hdet : detectPartialInstallation unrecEntries = false :=
    h.2.1 unrecEntries (by decide) (by decide)
  have hmain := h.2.2 rfl rfl rfl rfl (by decide) hdet
  refine ⟨hdet, ?_, ?_⟩
  · exact hmain.1
  · rw [hmain.1]
    exact hmain.2

/-- Known instance `a`, created with port 5500 and persisted as stopped. -/
def instAConfig : PostgreSQLInstanceConfig :=
  createInstanceConfig baseEnv "a" { port := some 5500 }

/-- Store holding only instance `a`. -/
def storeWithA : ConfigStore := saveInstanceConfig [] instAConfig

/-- The record `create b` returns on success. -/
def createdB : PostgreSQLInstanceConfig :=
  { createInstanceConfig baseEnv "b" { port := some 5500 } with
      spec.database.password := some "ownerpw" }

/-- C2 fails on the code: with instance `a` recorded as holding port 5500
but currently stopped (so nothing is listening and the `netstat` probe
reports the port free), `create b` requesting port 5500 succeeds — it
creates `b`'s directories and persists a second record with the same port —
instead of failing with a port conflict. -/
theorem create_ignores_stopped_instance_port :
    (getInstanceConfig storeWithA "a").map (·.spec.network.port) = some 5500 ∧
    (getInstanceConfig storeWithA "a").bind statusState = some .stopped ∧
    isPortAvailable baseEnv 5500 = true ∧
    (createInstance baseEnv storeWithA [] "b" { port := some 5500 }).1 =
      .ok createdB ∧
    createdB.spec.network.port = 5500 ∧
    fsLookup (createInstance baseEnv storeWithA [] "b"
        { port := some 5500 }).2.2.1 "/var/lib/postgresql/pgforge/b" ≠ none ∧
    getInstanceConfig
      (createInstance baseEnv storeWithA [] "b" { port := some 5500 }).2.1
      "b" = some createdB := by
  have hgetA : getInstanceConfig storeWithA "a" = some instAConfig := by
    simp [storeWithA, getInstanceConfig, saveInstanceConfig, instAConfig,
      createInstanceConfig]
  have hstore : (createInstance baseEnv storeWithA [] "b"
      { port := some 5500 }).2.1 = saveInstanceConfig storeWithA createdB := rfl
  refine ⟨?_, ?_, rfl, rfl, rfl, ?_, ?_⟩
  · rw [hgetA]
    simp [instAConfig, createInstanceConfig]
  · rw [hgetA]
    simp [instAConfig, createInstanceConfig, statusState]
  · decide
  · rw [hstore]
    simp [getInstanceConfig, saveInstanceConfig, createdB,
      createInstanceConfig, storeWithA, instAConfig, setStore, lookupStore]

/-- JavaScript truthiness of a parsed YAML value (the `if (!config)` guard
of `startInstance`): the empty string, the number 0 and `false` are falsy;
every array and object is truthy. -/
def jsTruthy : Yaml → Bool
  | .str s => !(s == "")
  | .num n => !(n == 0)
  | .bool b => b
  | .arr _ => true
  | .map _ => true

/-- The dynamic `config.status?.state === 'running'` test of
`startInstance` on a raw parsed value: property access on a non-object
yields `undefined`, which compares unequal to `'running'`. -/
def dynStateRunning (config : Yaml) : Bool :=
  match (config.get "status").bind (fun st => st.get "state") with
  | some (.str s) => s == "running"
  | _ => false

/-- Outcome of the guard sequence at the top of `startInstance` when run
on the unvalidated record the source's cast lets through. -/
inductive StartCheck where
  /-- The falsy-record guard threw the not-found error. -/
  | notFound
  /-- The state guard threw the already-running conflict. -/
  | alreadyRunning
  /-- Reading `config.spec.version` threw a TypeError because
  `config.spec` is `undefined`. -/
  | typeErrorSpecAccess
  /-- The guards passed; control reaches `checkPostgreSQLInstalled`. -/
  | proceeds
deriving DecidableEq

/-- The guard sequence of `startInstance` over the faithful unvalidated
read: `if (!config) throw not-found`, then the running-state conflict
guard, then the `config.spec.version` access — the first field access that
can throw a TypeError on a malformed record. -/
def startInstanceRawCheck (store : ConfigStore) (name : String) :
    StartCheck :=
  match getInstanceConfigRaw store name with
  | none => .notFound
  | some config =>
      if !(jsTruthy config) then .notFound
      else if dynStateRunning config then .alreadyRunning
      else
        match config.get "spec" with
        | none => .typeErrorSpecAccess
        | some _ => .proceeds

/-- Store holding a readable record file whose text parses to the plain
scalar `garbage` — corrupted, yet perfectly parsable YAML. -/
def garbledStore : ConfigStore := [("db", .content (.str "garbage"))]

/-- Counterexample to C10: a corrupted-but-parsable record is not reported
like a missing one — the read returns the parsed junk value itself (the
unchecked cast performs no validation), and `start` on it fails with a
TypeError at the `config.spec` access, not with the not-found error, so
the corrupted record is distinguishable from a non-existent instance. -/
theorem corrupted_record_reads_back_unvalidated :
    getInstanceConfigRaw garbledStore "db" = some (.str "garbage") ∧
    getInstanceConfigRaw [] "db" = none ∧
    startInstanceRawCheck garbledStore "db" = .typeErrorSpecAccess ∧
    startInstanceRawCheck garbledStore "db" ≠ .notFound := by
  exact ⟨rfl, rfl, rfl, by decide⟩

/-- C10 (amended): the record read returns `none` for exactly the three
read failures — a missing file, an unreadable file and a YAML-unparseable
file are reported identically — and each of them surfaces at `start` as
the not-found error; but the source performs no shape validation, so a
parsable document of the wrong shape reads back as the parsed value
itself, and `start` on a truthy malformed document without a `spec` field
fails with a TypeError at the `config.spec` access instead of not-found. -/
theorem get_failure_kinds_vs_malformed_records (env : Env)
    (store : ConfigStore) (name : String) :
    (lookupStore store name = none → getInstanceConfigRaw store name = none) ∧
    (lookupStore store name = some .unreadable →
      getInstanceConfigRaw store name = none) ∧
    (lookupStore store name = some .unparseable →
      getInstanceConfigRaw store name = none) ∧
    (∀ d, lookupStore store name = some (.content d) →
      getInstanceConfigRaw store name = some d) ∧
    (getInstanceConfig store name =
      (getInstanceConfigRaw store name).bind decodeConfig) ∧
    (getInstanceConfigRaw store name = none →
      startInstanceRawCheck store name = .notFound ∧
      startInstance env store name = (.error (.notFound name), store, [])) ∧
    (∀ d, lookupStore store name = some (.content d) → jsTruthy d = true →
      dynStateRunning d = false → d.get "spec" = none →
      startInstanceRawCheck store name = .typeErrorSpecAccess) := by
  refine ⟨?_, ?_, ?_, ?_, ?_, ?_, ?_⟩
  · intro h; simp [getInstanceConfigRaw, h]
  · intro h; simp [getInstanceConfigRaw, h]
  · intro h; simp [getInstanceConfigRaw, h]
  · intro d h; simp [getInstanceConfigRaw, h]
  · cases h : lookupStore store name with
    | none => simp [getInstanceConfig, getInstanceConfigRaw, h]
    | some f =>
        cases f <;> simp [getInstanceConfig, getInstanceConfigRaw, h]
  · intro h
    have hget : getInstanceConfig store name = none := by
      cases hl : lookupStore store name with
      | none => simp [getInstanceConfig, hl]
      | some f =>
          cases f with
          | unreadable => simp [getInstanceConfig, hl]
          | unparseable => simp [getInstanceConfig, hl]
          | content d => simp [getInstanceConfigRaw, hl] at h
    exact ⟨by simp [startInstanceRawCheck, h],
      by simp [startInstance, hget]⟩
  · intro d h htruthy hstate hspec
    simp [startInstanceRawCheck, getInstanceConfigRaw, h, htruthy, hstate,
      hspec]

/-- Witness for C10 (amended): the empty store, an unreadable file and an
unparseable file all read back as `none` and `start` reports not-found,
while the parsable garbage record trips the TypeError. -/
theorem get_failure_kinds_vs_malformed_records_witness :
    getInstanceConfigRaw [] "db" = none ∧
    getInstanceConfigRaw [("db", .unreadable)] "db" = none ∧
    getInstanceConfigRaw [("db", .unparseable)] "db" = none ∧
    startInstance baseEnv [] "db" = (.error (.notFound "db"), [], []) ∧
    startInstanceRawCheck garbledStore "db" = .typeErrorSpecAccess := by
  refine ⟨(get_failure_kinds_vs_malformed_records baseEnv [] "db").1 rfl,
    (get_failure_kinds_vs_malformed_records baseEnv
      [("db", .unreadable)] "db").2.1 rfl,
    (get_failure_kinds_vs_malformed_records baseEnv
      [("db", .unparseable)] "db").2.2.1 rfl,
    ((get_failure_kinds_vs_malformed_records baseEnv [] "db").2.2.2.2.2.1
      ((get_failure_kinds_vs_malformed_records baseEnv [] "db").1 rfl)).2,
    (get_failure_kinds_vs_malformed_records baseEnv garbledStore
      "db").2.2.2.2.2.2 (.str "garbage") rfl rfl rfl rfl⟩
